import Mathlib

/-
  Verification development for the renovation-tracker text-to-record
  extraction engine: a shallow embedding of the four document parsers
  (transaction, task, layout, moving-guide checklist) together with
  their field extractors and timeline resolver, plus theorems about
  the record schemas, boundary heuristics and date computations.

  Conventions of the embedding:
  * Python strings are Lean `String`s; `str.strip()` is `pyStrip`,
    `str.lower()` is `pyLower` (ASCII case folding, which agrees with
    Python on all characters the keyword tables contain),
    `needle in hay` is `pyIn`, `str.split()` is `pyWords`.
  * Python `datetime` values are modelled at day granularity by `Date`
    (proleptic Gregorian calendar, civil-from-days conversion), since
    every use in the source is `strftime("%Y-%m-%d")` after whole-day
    arithmetic.  `datetime.now()` becomes an explicit `today : Date`
    parameter of each parse function.
  * Regular expressions are unfolded into the concrete deterministic
    matchers they denote on the patterns used by the source (documented
    at each definition); `\w` is modelled as ASCII alphanumeric or
    underscore.
  * `pandas.DataFrame` is modelled by `ParseResult`: an ordered column
    list plus the list of emitted records (each record an ordered
    association list from column name to string value).
-/

set_option maxRecDepth 20000

namespace RenovationTracker

/-! ## Python-style string primitives -/

/-- Python whitespace characters (the set stripped by `str.strip()` and
matched by `\s` for the inputs considered here). -/
def isPyWs (c : Char) : Bool :=
  c = ' ' || c = '\t' || c = '\n' || c = '\r' || c = '\x0b' || c = '\x0c'

/-- A regex word character `\w`, modelled as ASCII alphanumeric or underscore. -/
def isWordChar (c : Char) : Bool := c.isAlphanum || c = '_'

/-- Strip leading and trailing characters satisfying `p` from a char list. -/
def stripWhile (p : Char → Bool) (cs : List Char) : List Char :=
  ((cs.dropWhile p).reverse.dropWhile p).reverse

/-- Strip only the trailing run of characters satisfying `p` (the effect of
`re.sub(r'[...]+$', '', value)`). -/
def stripTrailing (p : Char → Bool) (cs : List Char) : List Char :=
  (cs.reverse.dropWhile p).reverse

/-- Python `str.strip()`. -/
def pyStrip (s : String) : String := ⟨stripWhile isPyWs s.data⟩

/-- Python `str.strip(chars)`: strip any of the given characters from both ends. -/
def pyStripSet (cset : List Char) (s : String) : String :=
  ⟨stripWhile (fun c => cset.contains c) s.data⟩

/-- Python `str.lower()` (ASCII case folding). -/
def pyLower (s : String) : String := ⟨s.data.map Char.toLower⟩

/-- Index of the first occurrence of `needle` in `hay`, if any. -/
def subIdx (needle : List Char) : List Char → Option Nat
  | [] => if needle.isEmpty then some 0 else none
  | c :: t => if needle.isPrefixOf (c :: t) then some 0 else (subIdx needle t).map (· + 1)

/-- Python `needle in hay` on strings. -/
def pyIn (needle hay : String) : Bool := (subIdx needle.data hay.data).isSome

/-- Helper for `pyWords`: split a char list on whitespace, dropping empty pieces. -/
def splitWsAux : List Char → List Char → List (List Char)
  | [], acc => if acc.isEmpty then [] else [acc.reverse]
  | c :: t, acc =>
    if isPyWs c then
      if acc.isEmpty then splitWsAux t [] else acc.reverse :: splitWsAux t []
    else splitWsAux t (c :: acc)

/-- Python `str.split()` with no argument: split on whitespace runs. -/
def pyWords (s : String) : List String := (splitWsAux s.data []).map String.mk

/-- Split a char list at every occurrence of `sep`, keeping empty pieces. -/
def splitCharAux (sep : Char) : List Char → List Char → List (List Char)
  | [], acc => [acc.reverse]
  | c :: t, acc =>
    if c = sep then acc.reverse :: splitCharAux sep t []
    else splitCharAux sep t (c :: acc)

/-- Python `text.split('\n')`. -/
def pySplitLines (s : String) : List String := (splitCharAux '\n' s.data []).map String.mk

/-- Scan a char list left to right and return the first position where the
pattern matcher `f` succeeds (the leftmost-match rule of `re.search`). -/
def scanFirst {α : Type} (f : List Char → Option α) : List Char → Option α
  | [] => none
  | c :: t =>
    match f (c :: t) with
    | some r => some r
    | none => scanFirst f t

/-! ## Dates (day-granularity `datetime` model) -/

/-- A civil (proleptic Gregorian) calendar date. -/
structure Date where
  year : Int
  month : Int
  day : Int
deriving Repr, DecidableEq

/-- Day number of a civil date (days since 1970-01-01). -/
def daysFromCivil (d : Date) : Int :=
  let y := if d.month ≤ 2 then d.year - 1 else d.year
  let era := y.ediv 400
  let yoe := y - era * 400
  let mp := if d.month > 2 then d.month - 3 else d.month + 9
  let doy := (153 * mp + 2).ediv 5 + d.day - 1
  let doe := yoe * 365 + yoe.ediv 4 - yoe.ediv 100 + doy
  era * 146097 + doe - 719468

/-- Civil date of a day number (inverse of `daysFromCivil`). -/
def civilFromDays (z0 : Int) : Date :=
  let z := z0 + 719468
  let era := z.ediv 146097
  let doe := z - era * 146097
  let yoe := (doe - doe.ediv 1460 + doe.ediv 36524 - doe.ediv 146096).ediv 365
  let y := yoe + era * 400
  let doy := doe - (365 * yoe + yoe.ediv 4 - yoe.ediv 100)
  let mp := (5 * doy + 2).ediv 153
  let dd := doy - (153 * mp + 2).ediv 5 + 1
  let mm := if mp < 10 then mp + 3 else mp - 9
  ⟨if mm ≤ 2 then y + 1 else y, mm, dd⟩

/-- `d + timedelta(days = n)` at day granularity. -/
def addDays (d : Date) (n : Int) : Date := civilFromDays (daysFromCivil d + n)

/-- Left-pad the decimal representation of `n` with zeros to `width` digits. -/
def padNum (width : Nat) (n : Int) : String :=
  let s := toString n
  if s.length < width then String.mk (List.replicate (width - s.length) '0') ++ s else s

/-- `strftime("%Y-%m-%d")`. -/
def formatDate (d : Date) : String :=
  padNum 4 d.year ++ "-" ++ padNum 2 d.month ++ "-" ++ padNum 2 d.day

/-! ## Records and data frames -/

/-- A finalized record: an ordered association list from column name to value
(the dict literals built by the `_create_*_record` methods). -/
abbrev Record := List (String × String)

/-- The ordered column list of a record. -/
def recordKeys (r : Record) : List String := r.map Prod.fst

/-- Value of a column in a record (empty string when the column is absent). -/
def recordGet (r : Record) (k : String) : String :=
  match r.find? (fun p => p.1 == k) with
  | some p => p.2
  | none => ""

/-- Drop the named columns from a record (used to compare parses modulo
time-dependent fields). -/
def recordDrop (ks : List String) (r : Record) : Record :=
  r.filter (fun p => !(ks.contains p.1))

/-- A parse result: the model of the returned `pandas.DataFrame` — an ordered
column list together with the emitted rows. -/
structure ParseResult where
  columns : List String
  rows : List Record
deriving Repr, DecidableEq

/-- Column inference of `pd.DataFrame(list_of_dicts)`: the ordered union of
the key lists of the rows. -/
def unionKeys (rows : List Record) : List String :=
  rows.foldl (fun acc r => acc ++ ((recordKeys r).filter (fun k => !(acc.contains k)))) []

/-- `pd.DataFrame(rows)` for a non-empty list of dict rows. -/
def dataFrameOf (rows : List Record) : ParseResult := ⟨unionKeys rows, rows⟩

/-! ## Shared regex-derived extractors -/

/-- `re.search(alt1|alt2|..., line, re.IGNORECASE)` for plain-literal
alternations: does the lowercased line contain any of the needles? -/
def containsAnyCI (subs : List String) (line : String) : Bool :=
  subs.any (fun n => pyIn n (pyLower line))

/-- First keyword-table entry (in insertion order) one of whose keywords is a
substring of the given lowercased text. -/
def firstKeywordHit (table : List (String × List String)) (lowerText : String) : Option String :=
  table.findSome? (fun p => if p.2.any (fun k => pyIn k lowerText) then some p.1 else none)

/-- The lazy capture of `\s*(.+?)(?:\||$)` applied to the characters following
a label occurrence: skip leading whitespace, then capture up to (not
including) the first later `|`, or to the end; when the remainder is all
whitespace the regex backtracks one whitespace character into the capture,
which strips to the empty string.  Returns the captured text after
`.strip()` and removal of only the trailing `[,:;]+` run
(`re.sub(r'[,:;]+$', '', value)`).  `none` means the regex cannot match at
this occurrence (nothing follows the label). -/
def txnLabelValueAt (rest : List Char) : Option String :=
  if rest.isEmpty then none
  else
    let r := rest.dropWhile isPyWs
    if r.isEmpty then some ""
    else
      let captured :=
        match r with
        | [] => []
        | c :: t => c :: t.takeWhile (· ≠ '|')
      some ⟨stripTrailing (fun c => c = ',' || c = ':' || c = ';') (stripWhile isPyWs captured)⟩

/-- `TransactionParser._extract_value_after_label`: for each candidate label in
order, search `rf"{label}\s*(.+?)(?:\||$)"` case-insensitively and return the
first match's cleaned capture. -/
def extractValueAfterLabelTxn : List String → String → Option String
  | [], _ => none
  | label :: more, line =>
    match subIdx (pyLower label).data (pyLower line).data with
    | some i =>
      match txnLabelValueAt (line.data.drop (i + label.length)) with
      | some v => some v
      | none => extractValueAfterLabelTxn more line
    | none => extractValueAfterLabelTxn more line

/-- Match of `\$[\d,]+\.?\d*` anchored at the head of the char list. -/
def amountAt : List Char → Option String
  | '$' :: rest =>
    let run1 := rest.takeWhile (fun c => c.isDigit || c = ',')
    if run1.isEmpty then none
    else
      match rest.drop run1.length with
      | '.' :: rest3 => some ⟨'$' :: (run1 ++ '.' :: rest3.takeWhile Char.isDigit)⟩
      | _ => some ⟨'$' :: run1⟩
  | _ => none

/-- `_extract_amount`: leftmost match of `\$[\d,]+\.?\d*`. -/
def extractAmount (text : String) : Option String := scanFirst amountAt text.data

/-- Tail of date pattern 1 after the 1-2 day digits: `,? \d{4}` (optional
comma, literal space, four digits).  Returns the consumed characters. -/
def datePat1Tail (r : List Char) : Option (List Char) :=
  let (commaPart, r1) := match r with
    | ',' :: t => ([','], t)
    | _ => (([] : List Char), r)
  match r1 with
  | ' ' :: r2 =>
    if 4 ≤ (r2.takeWhile Char.isDigit).length then some (commaPart ++ ' ' :: r2.take 4)
    else none
  | _ => none

/-- Match of `\w+ \d{1,2},? \d{4}` ("October 24, 2025") anchored at the head:
maximal word run, literal space, one or two day digits (two tried first, as
the greedy engine does), optional comma, space, four year digits. -/
def datePat1At (cs : List Char) : Option String :=
  let w := cs.takeWhile isWordChar
  if w.isEmpty then none
  else
    match cs.drop w.length with
    | ' ' :: r1 =>
      let ds := r1.takeWhile Char.isDigit
      if ds.isEmpty then none
      else
        let try2 : Option (List Char) :=
          if 2 ≤ ds.length then (datePat1Tail (r1.drop 2)).map (fun t => r1.take 2 ++ t)
          else none
        let tail := match try2 with
          | some t => some t
          | none => (datePat1Tail (r1.drop 1)).map (fun t => r1.take 1 ++ t)
        tail.map (fun t => ⟨w ++ ' ' :: t⟩)
    | _ => none

/-- Candidate splits for `\d{1,2}` in greedy order (two digits first). -/
def take12 (cs : List Char) : List (List Char × List Char) :=
  let ds := cs.takeWhile Char.isDigit
  if 2 ≤ ds.length then [(cs.take 2, cs.drop 2), (cs.take 1, cs.drop 1)]
  else if 1 ≤ ds.length then [(cs.take 1, cs.drop 1)]
  else []

/-- Match of `\d{1,2}/\d{1,2}/\d{4}` ("10/24/2025") anchored at the head. -/
def datePat2At (cs : List Char) : Option String :=
  (take12 cs).findSome? (fun p1 =>
    match p1.2 with
    | '/' :: r2 =>
      (take12 r2).findSome? (fun p2 =>
        match p2.2 with
        | '/' :: r4 =>
          if 4 ≤ (r4.takeWhile Char.isDigit).length then
            some ⟨p1.1 ++ '/' :: (p2.1 ++ '/' :: r4.take 4)⟩
          else none
        | _ => none)
    | _ => none)

/-- Take exactly `n` digits from the head, or fail. -/
def takeExactDigits (n : Nat) (cs : List Char) : Option (List Char × List Char) :=
  let ds := cs.take n
  if ds.length = n && ds.all Char.isDigit then some (ds, cs.drop n) else none

/-- Match of `\d{4}-\d{2}-\d{2}` ("2025-10-24") anchored at the head. -/
def datePat3At (cs : List Char) : Option String :=
  match takeExactDigits 4 cs with
  | some (y4, r1) =>
    match r1 with
    | '-' :: r2 =>
      match takeExactDigits 2 r2 with
      | some (m2, r3) =>
        match r3 with
        | '-' :: r4 =>
          match takeExactDigits 2 r4 with
          | some (d2, _) => some ⟨y4 ++ '-' :: (m2 ++ '-' :: d2)⟩
          | none => none
        | _ => none
      | none => none
    | _ => none
  | none => none

/-- `_extract_date`: try the three date patterns in order, first match wins,
returning the literal matched substring. -/
def extractDate (text : String) : Option String :=
  match scanFirst datePat1At text.data with
  | some s => some s
  | none =>
    match scanFirst datePat2At text.data with
    | some s => some s
    | none => scanFirst datePat3At text.data

/-! ## Transaction parser (`transaction_parser.py`) -/

/-- `TransactionParser.category_keywords` in insertion order. -/
def categoryKeywords : List (String × List String) := [
  ("Materials", ["cabinets", "flooring", "tile", "paint", "supplies", "materials", "lumber", "hardware"]),
  ("Labor", ["labor", "contractor", "installation", "plumber", "electrician", "worker"]),
  ("Utilities", ["electric", "water", "gas", "utility", "utilities"]),
  ("Property Tax", ["tax", "property tax"]),
  ("Insurance", ["insurance"]),
  ("Permits", ["permit", "permits", "license"]),
  ("Equipment Rental", ["rental", "rent", "equipment"])]

/-- `TransactionParser.status_keywords` in insertion order. -/
def statusKeywords : List (String × List String) := [
  ("Paid", ["paid", "completed", "done"]),
  ("Pending", ["pending", "due", "outstanding"]),
  ("Reimbursed", ["reimbursed", "refunded"]),
  ("Disputed", ["disputed", "issue", "problem"])]

/-- `TransactionParser._extract_status`: first status whose keyword occurs in
the lowercased text, defaulting to "Pending". -/
def extractStatus (text : String) : String :=
  (firstKeywordHit statusKeywords (pyLower text)).getD "Pending"

/-- `TransactionParser._infer_category`: first category whose keyword occurs in
the lowercased description, defaulting to "Other" (also for empty input). -/
def inferCategory (description : String) : String :=
  if description = "" then "Other"
  else (firstKeywordHit categoryKeywords (pyLower description)).getD "Other"

/-- The in-progress transaction dict (`current_transaction`): fields are only
ever set to non-empty strings, so presence models Python-dict truthiness. -/
structure TxnDraft where
  transaction_date : Option String := none
  description : Option String := none
  amount : Option String := none
  vendor : Option String := none
  status : Option String := none
deriving Repr, DecidableEq

/-- One iteration of the field-recognition part of
`TransactionParser.parse_transactions` on a single line. -/
def txnStep (cur : TxnDraft) (line : String) : TxnDraft :=
  let cur := match extractDate line with
    | some d => if cur.transaction_date.isNone then { cur with transaction_date := some d } else cur
    | none => cur
  let cur := if containsAnyCI ["item:", "description:"] line then
      match extractValueAfterLabelTxn ["item:", "description:"] line with
      | some d => if d ≠ "" then { cur with description := some d } else cur
      | none => cur
    else cur
  let cur := if containsAnyCI ["cost:", "amount:", "price:"] line then
      match extractAmount line with
      | some a => { cur with amount := some a }
      | none => cur
    else if cur.amount.isNone then
      match extractAmount line with
      | some a => { cur with amount := some a }
      | none => cur
    else cur
  let cur := if containsAnyCI ["vendor:", "store:", "from:"] line then
      match extractValueAfterLabelTxn ["vendor:", "store:", "from:"] line with
      | some v => if v ≠ "" then { cur with vendor := some v } else cur
      | none => cur
    else cur
  let cur := if containsAnyCI ["status:"] line then
      { cur with status := some (extractStatus line) }
    else cur
  cur

/-- `TransactionParser._create_transaction_record`. -/
def createTransactionRecord (today : Date) (data : TxnDraft) (source_file : String) : Record :=
  [("Source File", source_file),
   ("Date Added", formatDate today),
   ("Transaction Date", data.transaction_date.getD ""),
   ("Category", inferCategory (data.description.getD "")),
   ("Description", data.description.getD ""),
   ("Amount", data.amount.getD ""),
   ("Payment Method", ""),
   ("Vendor", data.vendor.getD ""),
   ("Status", data.status.getD "Pending"),
   ("Notes", ""),
   ("Receipt Link", "./images/" ++ source_file)]

/-- First disjunct of the block-completion test: the next line (if any) is
blank — `i < len(lines) - 1 and not lines[i + 1].strip()`. -/
def txnBlankNext (rest : List String) : Bool :=
  match rest with
  | next :: _ => pyStrip next = ""
  | [] => false

/-- Third disjunct of the block-completion test: the next line (if any)
carries an `item:`/`description:` label while the draft has a description. -/
def txnNewItemNext (cur2 : TxnDraft) (rest : List String) : Bool :=
  match rest with
  | next :: _ => containsAnyCI ["item:", "description:"] next && cur2.description.isSome
  | [] => false

/-- The scanning loop of `parse_transactions`: processes each line, then tests
the block-completion condition — next line blank (first disjunct), input end
(second), or next line carrying an `item:`/`description:` label while the
current draft already has a description (third) — and emits/resets the draft
when the condition holds and the draft has a description or amount.  Returns
the emitted records together with the final (possibly incomplete) draft. -/
def txnLoop (today : Date) (source_file : String) :
    List String → TxnDraft → List Record × TxnDraft
  | [], cur => ([], cur)
  | line :: rest, cur =>
    let cur2 := txnStep cur line
    let flushCond := txnBlankNext rest || rest.isEmpty || txnNewItemNext cur2 rest
    if flushCond && (cur2.description.isSome || cur2.amount.isSome) then
      let p := txnLoop today source_file rest {}
      (createTransactionRecord today cur2 source_file :: p.1, p.2)
    else
      txnLoop today source_file rest cur2

/-- Shared line cleaning: `[line.strip() for line in text.split('\n') if line.strip()]`. -/
def cleanLines (text : String) : List String :=
  ((pySplitLines text).map pyStrip).filter (· ≠ "")

/-- Column order of the Budget & Expenses sheet (`_create_empty_dataframe`). -/
def txnSchema : List String :=
  ["Source File", "Date Added", "Transaction Date", "Category", "Description",
   "Amount", "Payment Method", "Vendor", "Status", "Notes", "Receipt Link"]

/-- `TransactionParser.parse_transactions`. -/
def parseTransactions (today : Date) (text source_file : String) : ParseResult :=
  let lines := cleanLines text
  let p := txnLoop today source_file lines {}
  let transactions :=
    if p.2.description.isSome || p.2.amount.isSome
    then p.1 ++ [createTransactionRecord today p.2 source_file]
    else p.1
  if transactions.isEmpty then ⟨txnSchema, []⟩ else dataFrameOf transactions

/-! ## Task parser (`task_parser.py`) -/

/-- `TaskParser.timeline_mappings` in insertion order. -/
def taskTimelineMappings : List (String × Int) := [
  ("two months before", 60),
  ("one month before", 30),
  ("three weeks before", 21),
  ("two weeks before", 14),
  ("one week before", 7),
  ("last few days", 3),
  ("few days before", 3),
  ("moving day", 0),
  ("after moving", -7),
  ("few days after", -7)]

/-- Exact-key lookup in an offset table (`dict.get`). -/
def lookupOffset (table : List (String × Int)) (k : String) : Option Int :=
  (table.find? (fun p => p.1 == k)).map Prod.snd

/-- `TaskParser._extract_timeline`: first table key contained in the lowercased
line, provided the line also contains "before", "after" or "day". -/
def taskExtractTimeline (line : String) : Option String :=
  let lower := pyLower line
  taskTimelineMappings.findSome? (fun p =>
    if pyIn p.1 lower && (pyIn "before" lower || pyIn "after" lower || pyIn "day" lower)
    then some p.1 else none)

/-- `TaskParser._calculate_due_date`: `datetime.now() + timedelta(days=offset)`
for the exact-match offset of the phrase; `None` for unknown phrases. -/
def taskCalculateDueDate (today : Date) (timeline : String) : Option String :=
  if timeline = "" then none
  else
    match lookupOffset taskTimelineMappings (pyLower timeline) with
    | some off => some (formatDate (addDays today off))
    | none => none

/-- The characters of the checkbox-mark class `[xXâœ“âœ”]`
as they appear (mojibake-encoded) in the source. -/
def checkMarkChars : List Char := ['x', 'X', 'â', 'œ', '“', '”']

/-- First cleanup sub of `_extract_task_text`:
`^[\[\(]?\s*[xX...]?\s*[\]\)]?\s*` — an all-optional greedy prefix. -/
def stripCheckboxPrefix (cs : List Char) : List Char :=
  let cs := match cs with
    | c :: t => if c = '[' || c = '(' then t else c :: t
    | [] => []
  let cs := cs.dropWhile isPyWs
  let cs := match cs with
    | c :: t => if checkMarkChars.contains c then t else c :: t
    | [] => []
  let cs := cs.dropWhile isPyWs
  let cs := match cs with
    | c :: t => if c = ']' || c = ')' then t else c :: t
    | [] => []
  cs.dropWhile isPyWs

/-- The characters of the bullet class `[â€¢\-\*]` in the source. -/
def bulletChars : List Char := ['â', '€', '¢', '-', '*']

/-- Second cleanup sub: `^[bullet]\s*`. -/
def stripBulletPrefix (cs : List Char) : List Char :=
  match cs with
  | c :: t => if bulletChars.contains c then t.dropWhile isPyWs else c :: t
  | [] => []

/-- The OCR-artifact class `[DQO1Il]`. -/
def ocrArtifactChars : List Char := ['D', 'Q', 'O', '1', 'I', 'l']

/-- Third cleanup sub: `^[DQO1Il]\s+` (the letter must be followed by
whitespace). -/
def stripOcrArtifact (cs : List Char) : List Char :=
  match cs with
  | c :: t =>
    if ocrArtifactChars.contains c &&
       (match t with | c2 :: _ => isPyWs c2 | [] => false)
    then t.dropWhile isPyWs
    else c :: t
  | [] => []

/-- The full cleanup chain of `_extract_task_text` (three subs plus `strip`). -/
def taskCleanLine (line : String) : String :=
  ⟨stripWhile isPyWs (stripOcrArtifact (stripBulletPrefix (stripCheckboxPrefix line.data)))⟩

/-- `TaskParser._is_section_header` indicator phrases. -/
def sectionIndicators : List String :=
  ["before your move", "after moving", "moving day", "to-do list", "checklist"]

/-- `TaskParser._is_section_header`. -/
def isSectionHeader (text : String) : Bool :=
  sectionIndicators.any (fun ind => pyIn ind (pyLower text))

/-- `TaskParser._extract_task_text`: the cleaned line, provided it is longer
than 5 characters and is not a section header. -/
def taskExtractTaskText (line : String) : Option String :=
  let cleaned := taskCleanLine line
  if 5 < cleaned.length && !(isSectionHeader cleaned) then some cleaned else none

/-- `TaskParser.room_keywords` in insertion order. -/
def taskRoomKeywords : List (String × List String) := [
  ("Kitchen", ["kitchen", "cabinets", "countertop", "sink", "stove", "oven", "dishwasher"]),
  ("Dining Room", ["dining", "dining room"]),
  ("Florida Room", ["florida", "florida room", "sunroom"]),
  ("Living Room", ["living", "living room"]),
  ("Laundry Room", ["laundry", "washer", "dryer"]),
  ("Master Bedroom", ["master", "master bedroom"]),
  ("Mom\x27s Bedroom", ["mom\x27s", "mom bedroom"]),
  ("Erik\x27s Bedroom", ["erik\x27s", "erik bedroom"]),
  ("Bathroom", ["bathroom", "toilet", "shower", "bathtub", "vanity"]),
  ("Garage", ["garage", "driveway"]),
  ("Closet", ["closet"]),
  ("Pantry", ["pantry"])]

/-- The "🔥 High" dropdown value as the (mojibake) characters stored in the source. -/
def prioHigh : String := "ðŸ”¥ High"

/-- The "🟡 Medium" dropdown value as stored in the source. -/
def prioMedium : String := "ðŸŸ¡ Medium"

/-- The "🟢 Low" dropdown value as stored in the source. -/
def prioLow : String := "ðŸŸ¢ Low"

/-- `TaskParser.priority_keywords` in insertion order. -/
def taskPriorityKeywords : List (String × List String) := [
  (prioHigh, ["urgent", "asap", "critical", "important", "high priority", "must", "required"]),
  (prioLow, ["optional", "later", "eventually", "low priority", "nice to have"])]

/-- `TaskParser._infer_room`: first room whose keyword occurs in the lowercased
description, defaulting to "General" (also for empty input). -/
def taskInferRoom (task_description : String) : String :=
  if task_description = "" then "General"
  else (firstKeywordHit taskRoomKeywords (pyLower task_description)).getD "General"

/-- `TaskParser._infer_priority`: first priority whose keyword occurs in the
lowercased description, defaulting to medium (also for empty input). -/
def taskInferPriority (task_description : String) : String :=
  if task_description = "" then prioMedium
  else (firstKeywordHit taskPriorityKeywords (pyLower task_description)).getD prioMedium

/-- `TaskParser._create_task_record`. -/
def createTaskRecord (today : Date) (task_text source_file : String)
    (timeline : Option String) (due_date : Option String) : Record :=
  let room := taskInferRoom task_text
  let priority := taskInferPriority task_text
  let notes := match timeline with
    | some tl => if tl ≠ "" then "Timeline: " ++ tl else ""
    | none => ""
  [("Source File", source_file),
   ("Date Added", formatDate today),
   ("Room", room),
   ("Task Description", task_text),
   ("Priority", priority),
   ("Status", "Not Started"),
   ("Assigned To", ""),
   ("Start Date", ""),
   ("Due Date", due_date.getD ""),
   ("Completion Date", ""),
   ("Estimated Cost", ""),
   ("Actual Cost", ""),
   ("Notes", notes)]

/-- The line loop of `TaskParser.parse_tasks`: a timeline header updates the
carried context without emitting, any other substantial line becomes a task
record tagged with the active context. -/
def taskLoop (today : Date) (source_file : String) :
    List String → Option String → Option String → List Record
  | [], _, _ => []
  | line :: rest, currentTimeline, currentDueDate =>
    match taskExtractTimeline line with
    | some timeline =>
      taskLoop today source_file rest (some timeline) (taskCalculateDueDate today timeline)
    | none =>
      match taskExtractTaskText line with
      | some task_text =>
        createTaskRecord today task_text source_file currentTimeline currentDueDate ::
          taskLoop today source_file rest currentTimeline currentDueDate
      | none => taskLoop today source_file rest currentTimeline currentDueDate

/-- Column order of the Task Tracker sheet (`_create_empty_dataframe`, shared
verbatim by `task_parser.py` and `moving_guide_parser.py`). -/
def taskSchema : List String :=
  ["Source File", "Date Added", "Room", "Task Description", "Priority", "Status",
   "Assigned To", "Start Date", "Due Date", "Completion Date", "Estimated Cost",
   "Actual Cost", "Notes"]

/-- `TaskParser.parse_tasks`. -/
def parseTasks (today : Date) (text source_file : String) : ParseResult :=
  let tasks := taskLoop today source_file (cleanLines text) none none
  if tasks.isEmpty then ⟨taskSchema, []⟩ else dataFrameOf tasks

/-! ## Moving-guide parser (`moving_guide_parser.py`) -/

/-- `MovingGuideParser.timeline_mappings` in insertion order. -/
def movingTimelineMappings : List (String × Int) := [
  ("4 weeks before", 28),
  ("3-4 weeks out", 25),
  ("3 weeks before", 21),
  ("2-4 weeks", 21),
  ("2 weeks before", 14),
  ("2 weeks out", 14),
  ("1-2 weeks out", 10),
  ("1 week before", 7),
  ("week of move", 3),
  ("moving day", 0),
  ("day after move", -1),
  ("week 1 after move", -7),
  ("weeks 2-4 after move", -14),
  ("arrival day", 0),
  ("first 2 hours", 0),
  ("day 1-2", -1),
  ("week 1-2", -7)]

/-- `MovingGuideParser.room_keywords` in insertion order. -/
def movingRoomKeywords : List (String × List String) := [
  ("Kitchen", ["kitchen", "dishes", "appliances", "coffee maker", "canned goods"]),
  ("Living Room", ["living room", "living areas", "furniture"]),
  ("Master Bedroom", ["bedroom", "bed frames", "mattress"]),
  ("Bathroom", ["bathroom", "toiletries"]),
  ("Garage", ["garage", "truck", "dolly", "hand truck", "tools"]),
  ("General", ["supplies", "boxes", "packing", "moving", "utilities"])]

/-- `MovingGuideParser.priority_keywords` in insertion order. -/
def movingPriorityKeywords : List (String × List String) := [
  ("high", ["essential", "critical", "first", "immediate", "safety",
            "urgent", "must", "priority 1", "important"]),
  ("medium", ["priority 2", "day 1", "verify", "confirm", "update"]),
  ("low", ["priority 3", "week 1-2", "explore", "final"])]

/-- `MovingGuideParser.VALID_PRIORITIES`. -/
def validPriorities : List (String × String) :=
  [("high", prioHigh), ("medium", prioMedium), ("low", prioLow)]

/-- Exact-key lookup in a string table (`dict.get`). -/
def lookupStr (table : List (String × String)) (k : String) : Option String :=
  (table.find? (fun p => p.1 == k)).map Prod.snd

/-- The default moving day of `MovingGuideParser.__init__` when no explicit
date is given: `datetime.now() + timedelta(days=14)`. -/
def defaultMovingDay (today : Date) : Date := addDays today 14

/-- `MovingGuideParser._calculate_due_date`: exact table lookup of the
lowercased phrase first, then the first table key contained in the phrase
(insertion order); on a hit the due date is `moving_day - timedelta(days=offset)`. -/
def movingCalculateDueDate (moving_day : Date) (timeline : Option String) : Option String :=
  match timeline with
  | none => none
  | some tl =>
    if tl = "" then none
    else
      let tll := pyLower tl
      match lookupOffset movingTimelineMappings tll with
      | some off => some (formatDate (addDays moving_day (-off)))
      | none =>
        match movingTimelineMappings.findSome?
            (fun p => if pyIn p.1 tll then some p.2 else none) with
        | some off => some (formatDate (addDays moving_day (-off)))
        | none => none

/-- Consume an exact literal from the head of a char list. -/
def takeLit : List Char → List Char → Option (List Char)
  | [], cs => some cs
  | l :: ls, c :: cs => if c = l then takeLit ls cs else none
  | _ :: _, [] => none

/-- Numeric value of a digit run (`int(...)` on the captured group). -/
def natOfDigits (ds : List Char) : Nat :=
  ds.foldl (fun n c => n * 10 + (c.toNat - 48)) 0

/-- Tail `\s+(\d+)-?(\d*)\s+before` of the weeks-before pattern, applied after
"week"/"weeks"; returns the first captured number. -/
def weeksBeforeTail (r : List Char) : Option Nat :=
  let ws := r.takeWhile isPyWs
  if ws.isEmpty then none
  else
    let r1 := r.drop ws.length
    let d1 := r1.takeWhile Char.isDigit
    if d1.isEmpty then none
    else
      let r2 := r1.drop d1.length
      let r3 := match r2 with
        | '-' :: t => t.dropWhile Char.isDigit
        | _ => r2
      let ws2 := r3.takeWhile isPyWs
      if ws2.isEmpty then none
      else
        match takeLit "before".data (r3.drop ws2.length) with
        | some _ => some (natOfDigits d1)
        | none => none

/-- Match of `weeks?\s+(\d+)-?(\d*)\s+before` anchored at the head of the
(lowercased) char list, returning `int(group(1))`. -/
def weeksBeforeAt (cs : List Char) : Option Nat :=
  match takeLit "week".data cs with
  | some r =>
    match r with
    | 's' :: r2 =>
      (match weeksBeforeTail r2 with
       | some n => some n
       | none => weeksBeforeTail r)
    | _ => weeksBeforeTail r
  | none => none

/-- Match of `(day|week\s+\d+)\s+after\s+move` anchored at the head of the
(lowercased) char list, returning the matched substring (`group(0)`): the
alternation tries "day" first, falling back to "week N" at the same position. -/
def dayWeekAfterMoveAt (cs : List Char) : Option String :=
  let tailMatch := fun (pre : List Char) (r : List Char) =>
    let ws1 := r.takeWhile isPyWs
    if ws1.isEmpty then none
    else
      match takeLit "after".data (r.drop ws1.length) with
      | some r2 =>
        let ws2 := r2.takeWhile isPyWs
        if ws2.isEmpty then none
        else
          match takeLit "move".data (r2.drop ws2.length) with
          | some _ => some (String.mk (pre ++ ws1 ++ "after".data ++ ws2 ++ "move".data))
          | none => none
      | none => none
  let alt2 : Option String :=
    match takeLit "week".data cs with
    | some r =>
      let ws := r.takeWhile isPyWs
      if ws.isEmpty then none
      else
        let r2 := r.drop ws.length
        let ds := r2.takeWhile Char.isDigit
        if ds.isEmpty then none
        else tailMatch ("week".data ++ ws ++ ds) (r2.drop ds.length)
    | none => none
  match takeLit "day".data cs with
  | some r =>
    (match tailMatch "day".data r with
     | some m => some m
     | none => alt2)
  | none => alt2

/-- The character set of the emoji-stripping call
`line.strip('ðŸ—“ï¸ðŸ“…ðŸ’ªðŸššðŸ ðŸ†˜ðŸ·ï¸âœ… ')` in
`_extract_section_info` (as the mojibake characters stored in the source). -/
def sectionStripChars : List Char :=
  ['ð', 'Ÿ', '—', '“', 'ï', '¸', '…', '’', 'ª', 'š', '\u00A0', '†', '˜', '·', 'â', 'œ', ' ']

/-- The result dict of `_extract_section_info`. -/
structure SectionInfo where
  sectionName : String
  timeline : Option String
  priority : String
deriving Repr, DecidableEq

/-- `MovingGuideParser._extract_section_info`: recognize a section header,
returning its cleaned label, timeline phrase and derived default priority. -/
def extractSectionInfo (line : String) : Option SectionInfo :=
  let lower := pyLower line
  let tp : Option String × String :=
    match scanFirst weeksBeforeAt lower.data with
    | some weekNum =>
      (some (toString weekNum ++ " weeks before"), if 2 ≤ weekNum then "medium" else "high")
    | none =>
      if pyIn "week of move" lower then (some "week of move", "high")
      else if pyIn "moving day" lower && !(pyIn "before" lower) then (some "moving day", "high")
      else
        match scanFirst dayWeekAfterMoveAt lower.data with
        | some m => (some m, if pyIn "day" m then "high" else "medium")
        | none =>
          if pyIn "arrival" lower then (some "arrival day", "high")
          else (none, "medium")
  if tp.1.isSome || ["checklist", "phase", "guide", "reference"].any (fun ind => pyIn ind lower) then
    some ⟨pyStrip (pyStripSet [':'] (pyStripSet sectionStripChars line)), tp.1, tp.2⟩
  else none

/-- Alternatives of the first placeholder-stripping sub of
`_extract_checklist_item`. -/
def placeholderAltsA : List (List Char) :=
  ["Qty".data, "Date".data, "Dates".data, "Platform".data,
   "Drop-off scheduled".data, "Rolls".data]

/-- Alternative of the second placeholder-stripping sub. -/
def placeholderAltsB : List (List Char) := ["Reserved/Purchased".data]

/-- Tail `:?\s*_+` of the placeholder patterns; returns the remainder after
the match. -/
def placeholderTail (r : List Char) : Option (List Char) :=
  let r1 := match r with
    | ':' :: t => t
    | _ => r
  let r2 := r1.dropWhile isPyWs
  let us := r2.takeWhile (· = '_')
  if us.isEmpty then none else some (r2.drop us.length)

/-- Match of `\s+-\s+(alt|...):?\s*_+` anchored at the head; returns the
remainder after the match. -/
def placeholderAt (alts : List (List Char)) (cs : List Char) : Option (List Char) :=
  let ws1 := cs.takeWhile isPyWs
  if ws1.isEmpty then none
  else
    match cs.drop ws1.length with
    | '-' :: r =>
      let ws2 := r.takeWhile isPyWs
      if ws2.isEmpty then none
      else
        let r2 := r.drop ws2.length
        alts.findSome? (fun alt =>
          match takeLit alt r2 with
          | some r3 => placeholderTail r3
          | none => none)
    | _ => none

/-- Fuel-indexed global `re.sub` remover for the placeholder patterns (each
match consumes at least one character, so length-much fuel suffices). -/
def subAllAux (alts : List (List Char)) : Nat → List Char → List Char
  | 0, cs => cs
  | _ + 1, [] => []
  | fuel + 1, c :: t =>
    match placeholderAt alts (c :: t) with
    | some rest => subAllAux alts fuel rest
    | none => c :: subAllAux alts fuel t

/-- Both placeholder-stripping subs of `_extract_checklist_item`, in order. -/
def removePlaceholders (s : String) : String :=
  let a := subAllAux placeholderAltsA s.data.length s.data
  ⟨subAllAux placeholderAltsB a.length a⟩

/-- `MovingGuideParser._extract_checklist_item`: checkbox match
`^\[\s*[xX...]?\s*\]\s+(.+)$`, placeholder stripping, and the substance
check `len > 5`. -/
def extractChecklistItem (line : String) : Option String :=
  match line.data with
  | '[' :: r =>
    let r1 := r.dropWhile isPyWs
    let r2 := match r1 with
      | c :: t => if checkMarkChars.contains c then t else c :: t
      | [] => []
    let r3 := r2.dropWhile isPyWs
    match r3 with
    | ']' :: r4 =>
      let ws := r4.takeWhile isPyWs
      if ws.isEmpty then none
      else
        let rest := r4.drop ws.length
        if rest.isEmpty then none
        else
          let task_text := removePlaceholders (pyStrip ⟨rest⟩)
          if 5 < task_text.length then some task_text else none
    | _ => none
  | _ => none

/-- Consume a literal (given lowercase) case-insensitively, returning the rest. -/
def takeLitCI : List Char → List Char → Option (List Char)
  | [], cs => some cs
  | l :: ls, c :: cs => if c.toLower = l then takeLitCI ls cs else none
  | _ :: _, [] => none

/-- `MovingGuideParser._extract_action_step`: `^Action\s+Step\s+\d+:\s*(.+)$`
case-insensitively; the capture is returned stripped (the caller treats an
empty result as no step). -/
def extractActionStep (line : String) : Option String :=
  match takeLitCI "action".data line.data with
  | some r =>
    let ws1 := r.takeWhile isPyWs
    if ws1.isEmpty then none
    else
      match takeLitCI "step".data (r.drop ws1.length) with
      | some r2 =>
        let ws2 := r2.takeWhile isPyWs
        if ws2.isEmpty then none
        else
          let r3 := r2.drop ws2.length
          let ds := r3.takeWhile Char.isDigit
          if ds.isEmpty then none
          else
            match r3.drop ds.length with
            | ':' :: rest => if rest.isEmpty then none else some (pyStrip ⟨rest⟩)
            | _ => none
      | none => none
  | none => none

/-- `MovingGuideParser._infer_room` (no empty-input special case here). -/
def movingInferRoom (task_text : String) : String :=
  (firstKeywordHit movingRoomKeywords (pyLower task_text)).getD "General"

/-- `MovingGuideParser._determine_priority`: keyword hit in the task text
overrides; otherwise the section's base priority level is mapped through
`VALID_PRIORITIES` with medium as final default. -/
def movingDeterminePriority (task_text base_priority : String) : String :=
  match firstKeywordHit movingPriorityKeywords (pyLower task_text) with
  | some p => (lookupStr validPriorities p).getD prioMedium
  | none => (lookupStr validPriorities base_priority).getD prioMedium

/-- `current_section or "General"` at record-creation time. -/
def sectionOr (cs : Option String) : String :=
  match cs with
  | some s => if s = "" then "General" else s
  | none => "General"

/-- `MovingGuideParser._create_task_record`. -/
def createMovingTaskRecord (today moving_day : Date) (task_text sectionLabel : String)
    (timeline : Option String) (priority_level : String) : Record :=
  let room := movingInferRoom task_text
  let priority := movingDeterminePriority task_text priority_level
  let due_date := movingCalculateDueDate moving_day timeline
  let notes_parts :=
    (if sectionLabel ≠ "" then ["Section: " ++ sectionLabel] else []) ++
    (match timeline with
     | some tl => if tl ≠ "" then ["Timeline: " ++ tl] else []
     | none => [])
  let notes := String.intercalate " | " notes_parts
  [("Source File", "moving_guide.txt"),
   ("Date Added", formatDate today),
   ("Room", room),
   ("Task Description", task_text),
   ("Priority", priority),
   ("Status", "Not Started"),
   ("Assigned To", ""),
   ("Start Date", ""),
   ("Due Date", due_date.getD ""),
   ("Completion Date", ""),
   ("Estimated Cost", ""),
   ("Actual Cost", ""),
   ("Notes", notes)]

/-- The line loop of `MovingGuideParser.parse_guide`: raw lines are stripped
and blank ones skipped; section headers update the carried
section/timeline/priority context; checkbox items and action steps emit
records. -/
def movingLoop (today moving_day : Date) :
    List String → Option String → Option String → String → List Record
  | [], _, _, _ => []
  | rawLine :: rest, cs, ct, cp =>
    let line := pyStrip rawLine
    if line = "" then movingLoop today moving_day rest cs ct cp
    else
      match extractSectionInfo line with
      | some si => movingLoop today moving_day rest (some si.sectionName) si.timeline si.priority
      | none =>
        match extractChecklistItem line with
        | some task =>
          createMovingTaskRecord today moving_day task (sectionOr cs) ct cp ::
            movingLoop today moving_day rest cs ct cp
        | none =>
          match extractActionStep line with
          | some step =>
            if step ≠ "" then
              createMovingTaskRecord today moving_day step (sectionOr cs) ct cp ::
                movingLoop today moving_day rest cs ct cp
            else movingLoop today moving_day rest cs ct cp
          | none => movingLoop today moving_day rest cs ct cp

/-- `MovingGuideParser.parse_guide` (the parser's column list coincides with
`taskSchema`). -/
def parseGuide (today moving_day : Date) (text : String) : ParseResult :=
  let tasks := movingLoop today moving_day (pySplitLines text) none none "medium"
  if tasks.isEmpty then ⟨taskSchema, []⟩ else dataFrameOf tasks

/-! ## Layout parser (`layout_parser.py`) -/

/-- `LayoutParser.room_keywords` in insertion order. -/
def layoutRoomKeywords : List (String × List String) := [
  ("Kitchen", ["kitchen"]),
  ("Dining Room", ["dining", "dining room"]),
  ("Florida Room", ["florida", "florida room", "sunroom"]),
  ("Living Room", ["living", "living room", "family room"]),
  ("Laundry Room", ["laundry", "laundry room"]),
  ("Master Bedroom", ["master", "master bedroom"]),
  ("Mom\x27s Bedroom", ["mom\x27s", "mom bedroom", "mom\x27s bedroom"]),
  ("Erik\x27s Bedroom", ["erik\x27s", "erik bedroom", "erik\x27s bedroom"]),
  ("Guest Bathroom", ["bathroom", "guest bathroom", "bath"]),
  ("Garage", ["garage"]),
  ("Linen Closet", ["linen", "linen closet"]),
  ("Backyard Area", ["backyard", "back yard", "rear yard"]),
  ("Frontyard Area", ["frontyard", "front yard"])]

/-- Word-boundary search `re.search(rf"\b{kw}\b", text)` for a keyword that
begins and ends with word characters (true of every room keyword): an
occurrence whose neighbours are absent or non-word characters.  `prev` is
the character immediately before the current scan position. -/
def wbSearchAux (kw : List Char) (prev : Option Char) : List Char → Bool
  | [] => false
  | c :: t =>
    (kw.isPrefixOf (c :: t) &&
      (match prev with
       | some p => !isWordChar p
       | none => true) &&
      (match (c :: t).drop kw.length with
       | c2 :: _ => !isWordChar c2
       | [] => true)) ||
    wbSearchAux kw (some c) t

/-- Word-boundary search over a whole char list. -/
def wbSearch (kw : List Char) (cs : List Char) : Bool := wbSearchAux kw none cs

/-- Does the lowercased line match `^room\s*:`? -/
def startsRoomLabel (lower : List Char) : Bool :=
  "room".data.isPrefixOf lower &&
    (match (lower.drop 4).dropWhile isPyWs with
     | ':' :: _ => true
     | _ => false)

/-- `line.split(':', 1)[1]`: everything after the first colon. -/
def afterFirstColon (s : String) : String :=
  ⟨(s.data.dropWhile (fun c => c ≠ ':')).drop 1⟩

/-- `LayoutParser._match_room_name`: first room one of whose keywords is a
substring of the lowercased text. -/
def matchRoomName (text : String) : Option String :=
  firstKeywordHit layoutRoomKeywords (pyLower text)

/-- `LayoutParser._extract_room`: a `Room:`-labelled line is resolved through
`_match_room_name`; otherwise the first room with a word-boundary keyword
hit, and only on a line of at most 4 words. -/
def layoutExtractRoom (line : String) : Option String :=
  let lower := pyLower line
  if startsRoomLabel lower.data then
    matchRoomName (pyStrip (afterFirstColon line))
  else
    layoutRoomKeywords.findSome? (fun p =>
      if p.2.any (fun k => wbSearch (pyLower k).data lower.data) then
        if (pyWords line).length ≤ 4 then some p.1 else none
      else none)

/-- Match of `\d+[\'\"]?\s*x\s*\d+[\'\"]?` (case-insensitive `x`) anchored at
the head; returns the matched substring. -/
def measPat1At (cs : List Char) : Option String :=
  let d1 := cs.takeWhile Char.isDigit
  if d1.isEmpty then none
  else
    let r := cs.drop d1.length
    let q1r : List Char × List Char := match r with
      | c :: t => if c = '\x27' || c = '\x22' then ([c], t) else ([], c :: t)
      | [] => ([], [])
    let ws1 := q1r.2.takeWhile isPyWs
    match q1r.2.drop ws1.length with
    | c :: t =>
      if c = 'x' || c = 'X' then
        let ws2 := t.takeWhile isPyWs
        let t2 := t.drop ws2.length
        let d2 := t2.takeWhile Char.isDigit
        if d2.isEmpty then none
        else
          let t3 := t2.drop d2.length
          let q2 : List Char := match t3 with
            | c2 :: _ => if c2 = '\x27' || c2 = '\x22' then [c2] else []
            | [] => []
          some ⟨d1 ++ q1r.1 ++ ws1 ++ c :: (ws2 ++ d2 ++ q2)⟩
      else none
    | [] => none

/-- Tail `ft\.?` (case-insensitive), returning its matched characters. -/
def ftTailAt (cs : List Char) : Option (List Char × List Char) :=
  match takeLitCI "ft".data cs with
  | some r =>
    match r with
    | '.' :: t => some ((cs.take 2) ++ ['.'], t)
    | _ => some (cs.take 2, r)
  | none => none

/-- Match of `\d+\s*ft\.?\s*x\s*\d+\s*ft\.?` (case-insensitive) anchored at
the head; returns the matched substring. -/
def measPat2At (cs : List Char) : Option String :=
  let d1 := cs.takeWhile Char.isDigit
  if d1.isEmpty then none
  else
    let r := cs.drop d1.length
    let ws1 := r.takeWhile isPyWs
    match ftTailAt (r.drop ws1.length) with
    | some ft1 =>
      let ws2 := ft1.2.takeWhile isPyWs
      match ft1.2.drop ws2.length with
      | c :: t =>
        if c = 'x' || c = 'X' then
          let ws3 := t.takeWhile isPyWs
          let t2 := t.drop ws3.length
          let d2 := t2.takeWhile Char.isDigit
          if d2.isEmpty then none
          else
            let t3 := t2.drop d2.length
            let ws4 := t3.takeWhile isPyWs
            match ftTailAt (t3.drop ws4.length) with
            | some ft2 =>
              some ⟨d1 ++ ws1 ++ ft1.1 ++ ws2 ++ c :: (ws3 ++ d2 ++ ws4 ++ ft2.1)⟩
            | none => none
        else none
      | [] => none
    | none => none

/-- Tail `feet?` (case-insensitive): "fee" plus a forced optional "t";
returns its matched characters. -/
def feetTailAt (cs : List Char) : Option (List Char × List Char) :=
  match takeLitCI "fee".data cs with
  | some r =>
    match r with
    | c :: t => if c.toLower = 't' then some (cs.take 4, t) else some (cs.take 3, c :: t)
    | [] => some (cs.take 3, [])
  | none => none

/-- Match of `\d+\s*feet?\s*x\s*\d+\s*feet?` (case-insensitive) anchored at
the head; returns the matched substring. -/
def measPat3At (cs : List Char) : Option String :=
  let d1 := cs.takeWhile Char.isDigit
  if d1.isEmpty then none
  else
    let r := cs.drop d1.length
    let ws1 := r.takeWhile isPyWs
    match feetTailAt (r.drop ws1.length) with
    | some f1 =>
      let ws2 := f1.2.takeWhile isPyWs
      match f1.2.drop ws2.length with
      | c :: t =>
        if c = 'x' || c = 'X' then
          let ws3 := t.takeWhile isPyWs
          let t2 := t.drop ws3.length
          let d2 := t2.takeWhile Char.isDigit
          if d2.isEmpty then none
          else
            let t3 := t2.drop d2.length
            let ws4 := t3.takeWhile isPyWs
            match feetTailAt (t3.drop ws4.length) with
            | some f2 =>
              some ⟨d1 ++ ws1 ++ f1.1 ++ ws2 ++ c :: (ws3 ++ d2 ++ ws4 ++ f2.1)⟩
            | none => none
        else none
      | [] => none
    | none => none

/-- Capture `\s*(.+)` of the label-to-end-of-line patterns, stripped; fails
when nothing follows the label. -/
def labelTailCapture (rest : List Char) : Option String :=
  if rest.isEmpty then none
  else some (pyStrip ⟨rest.dropWhile isPyWs⟩)

/-- Match of `dimension[s]?:\s*(.+)` (case-insensitive) anchored at the head. -/
def measPat4At (cs : List Char) : Option String :=
  match takeLitCI "dimension".data cs with
  | some r =>
    match r with
    | ':' :: rest => labelTailCapture rest
    | c :: ':' :: rest => if c.toLower = 's' then labelTailCapture rest else none
    | _ => none
  | none => none

/-- Match of `size:\s*(.+)` (case-insensitive) anchored at the head. -/
def measPat5At (cs : List Char) : Option String :=
  match takeLitCI "size".data cs with
  | some r =>
    match r with
    | ':' :: rest => labelTailCapture rest
    | _ => none
  | none => none

/-- `LayoutParser._extract_measurements`: the five dimension patterns tried
in order, each searched over the whole line, first match stripped. -/
def extractMeasurements (line : String) : Option String :=
  match scanFirst measPat1At line.data with
  | some m => some (pyStrip m)
  | none =>
    match scanFirst measPat2At line.data with
    | some m => some (pyStrip m)
    | none =>
      match scanFirst measPat3At line.data with
      | some m => some (pyStrip m)
      | none =>
        match scanFirst measPat4At line.data with
        | some m => some m
        | none => scanFirst measPat5At line.data

/-- Leftmost occurrence of `label` followed by an optional `s` and a colon
(the layout label shape `labels?:`); returns the index and matched length. -/
def findLabelColon (label : List Char) : List Char → Option (Nat × Nat)
  | [] => none
  | c :: t =>
    (if label.isPrefixOf (c :: t) then
      match (c :: t).drop label.length with
      | ':' :: _ => some (0, label.length + 1)
      | 's' :: ':' :: _ => some (0, label.length + 2)
      | _ => none
     else none).orElse
    (fun _ => (findLabelColon label t).map (fun p => (p.1 + 1, p.2)))

/-- The lazy capture of `\s*(.+?)(?:\n|$)` after a layout label: within a
single line this reaches the end of the line; all-whitespace remainders
strip to the empty string, an empty remainder fails the match.  The capture
is `.strip()`ped and only its trailing `[,:;]+` run removed
(`re.sub(r'[,:;]+$', '', value)`). -/
def layoutLabelValueAt (rest : List Char) : Option String :=
  if rest.isEmpty then none
  else
    let r := rest.dropWhile isPyWs
    if r.isEmpty then some ""
    else some ⟨stripTrailing (fun c => c = ',' || c = ':' || c = ';') (stripWhile isPyWs r)⟩

/-- `LayoutParser._extract_value_after_label`: for each candidate label in
order, search `rf"{label}s?:\s*(.+?)(?:\n|$)"` case-insensitively and return
the first match's cleaned capture. -/
def extractValueAfterLabelLayout : List String → String → Option String
  | [], _ => none
  | label :: more, line =>
    match findLabelColon (pyLower label).data (pyLower line).data with
    | some p =>
      match layoutLabelValueAt (line.data.drop (p.1 + p.2)) with
      | some v => some v
      | none => extractValueAfterLabelLayout more line
    | none => extractValueAfterLabelLayout more line

/-- The anchored label-line test
`^(feature|update|dimension|measurement|adjacent|status|note)s?:` used to
keep label lines out of the free-text description. -/
def descrSkipWords : List String :=
  ["feature", "update", "dimension", "measurement", "adjacent", "status", "note"]

/-- Does the line start with one of the label words, an optional `s`, and a
colon (case-insensitively)? -/
def isLabelLine (line : String) : Bool :=
  let l := (pyLower line).data
  descrSkipWords.any (fun w =>
    w.data.isPrefixOf l &&
      (match l.drop w.length with
       | ':' :: _ => true
       | 's' :: ':' :: _ => true
       | _ => false))

/-- The running per-room state of `LayoutParser.parse_layout`. -/
structure LayoutState where
  room : Option String := none
  description : List String := []
  features : List String := []
  measurements : Option String := none
  adjacent : List String := []
  status : Option String := none
  notes : List String := []
deriving Repr, DecidableEq

/-- `LayoutParser._create_layout_record`. -/
def createLayoutRecord (today : Date) (room : String) (description features : List String)
    (measurements : Option String) (adjacent : List String) (status : Option String)
    (notes : List String) (source_file : String) : Record :=
  [("Source File", source_file),
   ("Date Added", formatDate today),
   ("Room/Area Name", room),
   ("Description", if description.isEmpty then "" else String.intercalate " " description),
   ("Features", if features.isEmpty then "" else String.intercalate "; " features),
   ("Measurements", measurements.getD ""),
   ("Adjacent To", if adjacent.isEmpty then "" else String.intercalate ", " adjacent),
   ("Current Status", status.getD ""),
   ("Notes", if notes.isEmpty then "" else String.intercalate " " notes)]

/-- Flush the current room state into a record (used at a new room boundary
and at end of input). -/
def layoutFlush (today : Date) (source_file : String) (st : LayoutState) : List Record :=
  match st.room with
  | some room =>
    [createLayoutRecord today room st.description st.features st.measurements
      st.adjacent st.status st.notes source_file]
  | none => []

/-- Measurement accumulation of one `parse_layout` iteration (comma-joined,
never overwritten). -/
def layoutStepMeas (st : LayoutState) (line : String) : LayoutState :=
  match extractMeasurements line with
  | some m =>
    if m ≠ "" && st.room.isSome then
      { st with measurements := match st.measurements with
          | none => some m
          | some old => some (old ++ ", " ++ m) }
    else st
  | none => st

/-- Feature capture of one `parse_layout` iteration. -/
def layoutStepFeature (st : LayoutState) (line : String) : LayoutState :=
  if containsAnyCI ["feature", "update", "change", "layout", "include:", "includes:"] line
      && st.room.isSome then
    match extractValueAfterLabelLayout ["feature", "update", "change", "layout", "includes"] line with
    | some v => if v ≠ "" then { st with features := st.features ++ [v] } else st
    | none => st
  else st

/-- Adjacency capture of one `parse_layout` iteration. -/
def layoutStepAdjacent (st : LayoutState) (line : String) : LayoutState :=
  if containsAnyCI ["adjacent", "near", "next to", "beside:"] line && st.room.isSome then
    match extractValueAfterLabelLayout ["adjacent", "near", "next to", "beside"] line with
    | some v => if v ≠ "" then { st with adjacent := st.adjacent ++ [v] } else st
    | none => st
  else st

/-- Status capture of one `parse_layout` iteration (assignment, so a later
status line overwrites). -/
def layoutStepStatus (st : LayoutState) (line : String) : LayoutState :=
  if containsAnyCI ["status", "current", "condition:"] line && st.room.isSome then
    match extractValueAfterLabelLayout ["status", "current", "condition"] line with
    | some v => if v ≠ "" then { st with status := some v } else st
    | none => st
  else st

/-- Notes capture of one `parse_layout` iteration. -/
def layoutStepNotes (st : LayoutState) (line : String) : LayoutState :=
  if containsAnyCI ["note", "note:", "notes:", "comment:"] line && st.room.isSome then
    match extractValueAfterLabelLayout ["note", "notes", "comment"] line with
    | some v => if v ≠ "" then { st with notes := st.notes ++ [v] } else st
    | none => st
  else st

/-- Free-text description accumulation of one `parse_layout` iteration. -/
def layoutStepDescr (st : LayoutState) (line : String) : LayoutState :=
  if st.room.isSome && 5 < line.length && !(isLabelLine line) then
    { st with description := st.description ++ [line] }
  else st

/-- The field-accumulation part of one `parse_layout` iteration on a
non-room-boundary line: the six checks of the source, in source order. -/
def layoutStep (st : LayoutState) (line : String) : LayoutState :=
  layoutStepDescr
    (layoutStepNotes
      (layoutStepStatus
        (layoutStepAdjacent
          (layoutStepFeature (layoutStepMeas st line) line) line) line) line) line

/-- The line loop of `LayoutParser.parse_layout`: a room boundary flushes the
previous room and opens a fresh state; other lines accumulate fields; end of
input flushes the last room. -/
def layoutLoop (today : Date) (source_file : String) :
    List String → LayoutState → List Record
  | [], st => layoutFlush today source_file st
  | line :: rest, st =>
    match layoutExtractRoom line with
    | some room =>
      layoutFlush today source_file st ++
        layoutLoop today source_file rest { room := some room }
    | none => layoutLoop today source_file rest (layoutStep st line)

/-- Python `text[:n]` (by code points). -/
def pyTake (n : Nat) (s : String) : String := ⟨s.data.take n⟩

/-- `LayoutParser._create_general_record`: the fallback record when no room
block was detected. -/
def createGeneralRecord (today : Date) (text source_file : String) : Record :=
  let measurements := ((pySplitLines text).filterMap extractMeasurements).filter (· ≠ "")
  [("Source File", source_file),
   ("Date Added", formatDate today),
   ("Room/Area Name", ""),
   ("Description", if text = "" then "" else pyTake 200 text),
   ("Features", ""),
   ("Measurements", if measurements.isEmpty then "" else String.intercalate ", " measurements),
   ("Adjacent To", ""),
   ("Current Status", ""),
   ("Notes", if 200 < text.length then pyTake 500 text else "")]

/-- Column order of the Property Layout sheet (`_create_empty_dataframe`). -/
def layoutSchema : List String :=
  ["Source File", "Date Added", "Room/Area Name", "Description", "Features",
   "Measurements", "Adjacent To", "Current Status", "Notes"]

/-- `LayoutParser.parse_layout`. -/
def parseLayout (today : Date) (text source_file : String) : ParseResult :=
  let layouts := layoutLoop today source_file (cleanLines text) {}
  let layouts := if layouts.isEmpty then [createGeneralRecord today text source_file] else layouts
  dataFrameOf layouts

/-! ## Spec-side definitions and concrete dates

Definitions in this section follow the wording of the specification (for
refinement comparisons against the source-derived definitions above), plus
concrete dates used in witnesses and counterexamples. -/

/-- Spec wording of the timeline lookup: exact phrase match first, otherwise
the first substring-containment match in table iteration order. -/
def movingLookupSpec (phrase : String) : Option Int :=
  match lookupOffset movingTimelineMappings phrase with
  | some off => some off
  | none => movingTimelineMappings.findSome? (fun p => if pyIn p.1 phrase then some p.2 else none)

/-- Spec wording of the keyword classifiers: lowercase the text and return the
first category (in table iteration order) one of whose keywords occurs as a
substring anywhere in it, with a per-classifier default. -/
def firstSubstringCategory (table : List (String × List String)) (deflt : String)
    (text : String) : String :=
  (firstKeywordHit table (pyLower text)).getD deflt

/-- The transaction scanning loop with the amended flush rule: flush exactly
at end of input or when the next line carries an `item:`/`description:`
label while the draft already has a description.  (The blank-next-line
disjunct of the source loop is dropped; it is unreachable because blank
lines are filtered out before scanning.) -/
def txnLoopEndOrNewItem (today : Date) (source_file : String) :
    List String → TxnDraft → List Record × TxnDraft
  | [], cur => ([], cur)
  | line :: rest, cur =>
    let cur2 := txnStep cur line
    let flushCond := rest.isEmpty || txnNewItemNext cur2 rest
    if flushCond && (cur2.description.isSome || cur2.amount.isSome) then
      (createTransactionRecord today cur2 source_file ::
        (txnLoopEndOrNewItem today source_file rest {}).1,
       (txnLoopEndOrNewItem today source_file rest {}).2)
    else txnLoopEndOrNewItem today source_file rest cur2

/-- `parse_transactions` with the amended flush rule. -/
def parseTransactionsEndOrNewItem (today : Date) (text source_file : String) : ParseResult :=
  let lines := cleanLines text
  let p := txnLoopEndOrNewItem today source_file lines {}
  let transactions :=
    if p.2.description.isSome || p.2.amount.isSome
    then p.1 ++ [createTransactionRecord today p.2 source_file]
    else p.1
  if transactions.isEmpty then ⟨txnSchema, []⟩ else dataFrameOf transactions

/-- 2025-11-01, the anchor/parse date used in witnesses. -/
def d20251101 : Date := ⟨2025, 11, 1⟩

/-- 2025-11-02, a second parse date used to compare re-parses. -/
def d20251102 : Date := ⟨2025, 11, 2⟩

/-! ## Helper lemmas -/

theorem stripWhile_eq_rdropWhile_dropWhile (p : Char → Bool) (cs : List Char) :
    stripWhile p cs = List.rdropWhile p (cs.dropWhile p) := by
  simp [stripWhile, List.rdropWhile]

theorem dropWhile_of_prefix_of_dropWhile_self {p : Char → Bool} {A B : List Char}
    (hpre : B <+: A) (hA : A.dropWhile p = A) : B.dropWhile p = B := by
  rw [List.dropWhile_eq_self_iff] at hA ⊢
  intro hl
  obtain ⟨t, ht⟩ := hpre
  cases B with
  | nil => exact absurd hl (by simp)
  | cons b bs =>
    subst ht
    have hAl : 0 < (b :: (bs ++ t)).length := by simp
    have h0 := hA hAl
    simpa using h0

theorem stripWhile_idem (p : Char → Bool) (cs : List Char) :
    stripWhile p (stripWhile p cs) = stripWhile p cs := by
  rw [stripWhile_eq_rdropWhile_dropWhile, stripWhile_eq_rdropWhile_dropWhile]
  rw [dropWhile_of_prefix_of_dropWhile_self (List.rdropWhile_prefix p (cs.dropWhile p))
        (List.dropWhile_idempotent p cs)]
  exact List.rdropWhile_idempotent p (cs.dropWhile p)

theorem pyStrip_idem (s : String) : pyStrip (pyStrip s) = pyStrip s := by
  simp only [pyStrip]
  exact congrArg String.mk (stripWhile_idem isPyWs s.data)

theorem mem_cleanLines {text l : String} (h : l ∈ cleanLines text) :
    pyStrip l = l ∧ l ≠ "" := by
  rcases List.mem_filter.1 h with ⟨hmem, hne⟩
  rcases List.mem_map.1 hmem with ⟨y, _, hy⟩
  refine ⟨?_, by simpa using hne⟩
  rw [← hy]
  exact pyStrip_idem y

theorem unionKeys_cons_nil (r : Record) (schema : List String)
    (h : recordKeys r = schema) :
    (([] : List String) ++ ((recordKeys r).filter (fun k => !(List.contains [] k)))) = schema := by
  subst h
  simp [List.contains]

theorem unionKeys_const (schema : List String) :
    ∀ rows : List Record, rows ≠ [] → (∀ r ∈ rows, recordKeys r = schema) →
      unionKeys rows = schema := by
  have step : ∀ (rs : List Record), (∀ r ∈ rs, recordKeys r = schema) →
      List.foldl (fun acc r => acc ++ ((recordKeys r).filter (fun k => !(acc.contains k))))
        schema rs = schema := by
    intro rs
    induction rs with
    | nil => intro _; rfl
    | cons r rs ih =>
      intro h
      have hr := h r (List.mem_cons_self r rs)
      have hnil : (recordKeys r).filter (fun k => !(schema.contains k)) = [] := by
        rw [hr]
        rw [List.filter_eq_nil_iff]
        intro k hk
        simp [hk]
      simp only [List.foldl_cons, hnil, List.append_nil]
      exact ih (fun x hx => h x (List.mem_cons_of_mem r hx))
  intro rows hne h
  match rows with
  | [] => exact absurd rfl hne
  | r :: rs =>
    unfold unionKeys
    simp only [List.foldl_cons]
    rw [unionKeys_cons_nil r schema (h r (List.mem_cons_self r rs))]
    exact step rs (fun x hx => h x (List.mem_cons_of_mem r hx))

theorem txnLoop_nil (today : Date) (sf : String) (cur : TxnDraft) :
    txnLoop today sf [] cur = ([], cur) := rfl

theorem txnLoop_cons (today : Date) (sf line : String) (rest : List String) (cur : TxnDraft) :
    txnLoop today sf (line :: rest) cur =
      (if (txnBlankNext rest || rest.isEmpty || txnNewItemNext (txnStep cur line) rest) &&
          ((txnStep cur line).description.isSome || (txnStep cur line).amount.isSome) then
         (createTransactionRecord today (txnStep cur line) sf :: (txnLoop today sf rest {}).1,
          (txnLoop today sf rest {}).2)
       else txnLoop today sf rest (txnStep cur line)) := rfl

/-- Every record emitted by the transaction loop satisfies any property shared
by all `createTransactionRecord` results. -/
theorem txnLoop_forall (today : Date) (sf : String) (P : Record → Prop)
    (hP : ∀ data, P (createTransactionRecord today data sf)) :
    ∀ (lines : List String) (cur : TxnDraft),
      ∀ r ∈ (txnLoop today sf lines cur).1, P r := by
  intro lines
  induction lines with
  | nil => intro cur r hr; simp [txnLoop_nil] at hr
  | cons line rest ih =>
    intro cur r hr
    simp only [txnLoop_cons] at hr
    split at hr
    · rcases List.mem_cons.1 hr with h | h
      · subst h; exact hP _
      · exact ih _ r h
    · exact ih _ r hr

theorem parseTransactions_rows_forall (today : Date) (text sf : String) (P : Record → Prop)
    (hP : ∀ data, P (createTransactionRecord today data sf)) :
    ∀ r ∈ (parseTransactions today text sf).rows, P r := by
  intro r hr
  simp only [parseTransactions, dataFrameOf] at hr
  by_cases hc : (txnLoop today sf (cleanLines text) {}).2.description.isSome ||
      (txnLoop today sf (cleanLines text) {}).2.amount.isSome
  · rw [if_pos hc] at hr
    split at hr
    · simp at hr
    · rcases List.mem_append.1 hr with h | h
      · exact txnLoop_forall today sf P hP _ _ r h
      · rcases List.mem_singleton.1 h with h
        subst h; exact hP _
  · rw [if_neg hc] at hr
    split at hr
    · simp at hr
    · exact txnLoop_forall today sf P hP _ _ r hr

/-- Every record emitted by the task loop satisfies any property shared by
the `createTaskRecord` results on extracted task texts. -/
theorem taskLoop_forall (today : Date) (sf : String) (P : Record → Prop)
    (hP : ∀ line t tl dd, taskExtractTaskText line = some t →
      P (createTaskRecord today t sf tl dd)) :
    ∀ (lines : List String) (tl dd : Option String),
      ∀ r ∈ taskLoop today sf lines tl dd, P r := by
  intro lines
  induction lines with
  | nil => intro tl dd r hr; simp [taskLoop] at hr
  | cons line rest ih =>
    intro tl dd r hr
    rw [taskLoop] at hr
    cases h1 : taskExtractTimeline line with
    | some timeline => rw [h1] at hr; exact ih _ _ r hr
    | none =>
      rw [h1] at hr
      cases h2 : taskExtractTaskText line with
      | some t =>
        rw [h2] at hr
        rcases List.mem_cons.1 hr with h | h
        · subst h; exact hP line t tl dd h2
        · exact ih _ _ r h
      | none => rw [h2] at hr; exact ih _ _ r hr

theorem parseTasks_rows_forall (today : Date) (text sf : String) (P : Record → Prop)
    (hP : ∀ line t tl dd, taskExtractTaskText line = some t →
      P (createTaskRecord today t sf tl dd)) :
    ∀ r ∈ (parseTasks today text sf).rows, P r := by
  intro r hr
  simp only [parseTasks, dataFrameOf] at hr
  split at hr
  · simp at hr
  · exact taskLoop_forall today sf P hP _ _ _ r hr

/-- Every record emitted by the moving-guide loop satisfies any property
shared by all `createMovingTaskRecord` results. -/
theorem movingLoop_forall (today md : Date) (P : Record → Prop)
    (hP : ∀ task sec tl pr, P (createMovingTaskRecord today md task sec tl pr)) :
    ∀ (lines : List String) (cs ct : Option String) (cp : String),
      ∀ r ∈ movingLoop today md lines cs ct cp, P r := by
  intro lines
  induction lines with
  | nil => intro cs ct cp r hr; simp [movingLoop] at hr
  | cons rawLine rest ih =>
    intro cs ct cp r hr
    rw [movingLoop] at hr
    by_cases hblank : pyStrip rawLine = ""
    · rw [if_pos hblank] at hr; exact ih _ _ _ r hr
    · rw [if_neg hblank] at hr
      cases h1 : extractSectionInfo (pyStrip rawLine) with
      | some si => rw [h1] at hr; exact ih _ _ _ r hr
      | none =>
        rw [h1] at hr
        cases h2 : extractChecklistItem (pyStrip rawLine) with
        | some task =>
          rw [h2] at hr
          rcases List.mem_cons.1 hr with h | h
          · subst h; exact hP _ _ _ _
          · exact ih _ _ _ r h
        | none =>
          rw [h2] at hr
          cases h3 : extractActionStep (pyStrip rawLine) with
          | some step =>
            rw [h3] at hr
            have hr2 : r ∈ (if step ≠ "" then
                createMovingTaskRecord today md step (sectionOr cs) ct cp ::
                  movingLoop today md rest cs ct cp
              else movingLoop today md rest cs ct cp) := hr
            by_cases hne : step = ""
            · rw [if_neg (fun hcon => hcon hne)] at hr2
              exact ih _ _ _ r hr2
            · rw [if_pos hne] at hr2
              rcases List.mem_cons.1 hr2 with h | h
              · subst h; exact hP _ _ _ _
              · exact ih _ _ _ r h
          | none => rw [h3] at hr; exact ih _ _ _ r hr

theorem parseGuide_rows_forall (today md : Date) (text : String) (P : Record → Prop)
    (hP : ∀ task sec tl pr, P (createMovingTaskRecord today md task sec tl pr)) :
    ∀ r ∈ (parseGuide today md text).rows, P r := by
  intro r hr
  simp only [parseGuide, dataFrameOf] at hr
  split at hr
  · simp at hr
  · exact movingLoop_forall today md P hP _ _ _ _ r hr

/-- Every record emitted by the layout loop satisfies any property shared by
all `createLayoutRecord` results. -/
theorem layoutLoop_forall (today : Date) (sf : String) (P : Record → Prop)
    (hP : ∀ room de fe me ad st no, P (createLayoutRecord today room de fe me ad st no sf)) :
    ∀ (lines : List String) (st : LayoutState),
      ∀ r ∈ layoutLoop today sf lines st, P r := by
  have hflush : ∀ st : LayoutState, ∀ r ∈ layoutFlush today sf st, P r := by
    intro st r hr
    unfold layoutFlush at hr
    split at hr
    · rcases List.mem_singleton.1 hr with h; subst h; exact hP _ _ _ _ _ _ _
    · simp at hr
  intro lines
  induction lines with
  | nil => intro st r hr; rw [layoutLoop] at hr; exact hflush st r hr
  | cons line rest ih =>
    intro st r hr
    rw [layoutLoop] at hr
    cases h1 : layoutExtractRoom line with
    | some room =>
      rw [h1] at hr
      rcases List.mem_append.1 hr with h | h
      · exact hflush st r h
      · exact ih _ r h
    | none => rw [h1] at hr; exact ih _ r hr

theorem parseLayout_rows_forall (today : Date) (text sf : String) (P : Record → Prop)
    (hP : ∀ room de fe me ad st no, P (createLayoutRecord today room de fe me ad st no sf))
    (hPg : P (createGeneralRecord today text sf)) :
    ∀ r ∈ (parseLayout today text sf).rows, P r := by
  intro r hr
  simp only [parseLayout, dataFrameOf] at hr
  split at hr
  · rcases List.mem_singleton.1 hr with h; subst h; exact hPg
  · exact layoutLoop_forall today sf P hP _ _ r hr

theorem createTransactionRecord_keys (today : Date) (data : TxnDraft) (sf : String) :
    recordKeys (createTransactionRecord today data sf) = txnSchema := rfl

theorem createTaskRecord_keys (today : Date) (t sf : String) (tl dd : Option String) :
    recordKeys (createTaskRecord today t sf tl dd) = taskSchema := rfl

theorem createMovingTaskRecord_keys (today md : Date) (t sec : String) (tl : Option String)
    (pr : String) : recordKeys (createMovingTaskRecord today md t sec tl pr) = taskSchema := rfl

theorem createLayoutRecord_keys (today : Date) (room : String) (de fe : List String)
    (me : Option String) (ad : List String) (st : Option String) (no : List String)
    (sf : String) : recordKeys (createLayoutRecord today room de fe me ad st no sf) = layoutSchema := rfl

theorem createGeneralRecord_keys (today : Date) (text sf : String) :
    recordKeys (createGeneralRecord today text sf) = layoutSchema := rfl

theorem ne_nil_of_not_isEmpty {α : Type} {l : List α} (h : ¬ l.isEmpty = true) : l ≠ [] :=
  fun hn => h (by subst hn; rfl)

theorem parseTransactions_columns (today : Date) (text sf : String) :
    (parseTransactions today text sf).columns = txnSchema := by
  simp only [parseTransactions, dataFrameOf]
  by_cases hc : (txnLoop today sf (cleanLines text) {}).2.description.isSome ||
      (txnLoop today sf (cleanLines text) {}).2.amount.isSome
  · rw [if_pos hc]
    split
    · rfl
    · next h =>
      apply unionKeys_const
      · exact ne_nil_of_not_isEmpty h
      · intro r hr
        rcases List.mem_append.1 hr with h2 | h2
        · exact txnLoop_forall today sf (fun r => recordKeys r = txnSchema) (fun data => createTransactionRecord_keys today data sf) _ _ r h2
        · rcases List.mem_singleton.1 h2 with h2
          subst h2; exact createTransactionRecord_keys today _ sf
  · rw [if_neg hc]
    split
    · rfl
    · next h =>
      apply unionKeys_const
      · exact ne_nil_of_not_isEmpty h
      · intro r hr
        exact txnLoop_forall today sf (fun r => recordKeys r = txnSchema) (fun data => createTransactionRecord_keys today data sf) _ _ r hr

theorem parseTasks_columns (today : Date) (text sf : String) :
    (parseTasks today text sf).columns = taskSchema := by
  simp only [parseTasks, dataFrameOf]
  split
  · rfl
  · next h =>
    apply unionKeys_const
    · exact ne_nil_of_not_isEmpty h
    · exact taskLoop_forall today sf (fun r => recordKeys r = taskSchema) (fun line t tl dd _ => createTaskRecord_keys today t sf tl dd) _ _ _

theorem parseGuide_columns (today md : Date) (text : String) :
    (parseGuide today md text).columns = taskSchema := by
  simp only [parseGuide, dataFrameOf]
  split
  · rfl
  · next h =>
    apply unionKeys_const
    · exact ne_nil_of_not_isEmpty h
    · exact movingLoop_forall today md (fun r => recordKeys r = taskSchema)
        (fun t sec tl pr => createMovingTaskRecord_keys today md t sec tl pr) _ _ _ _

theorem parseLayout_columns (today : Date) (text sf : String) :
    (parseLayout today text sf).columns = layoutSchema := by
  simp only [parseLayout, dataFrameOf]
  split
  · apply unionKeys_const
    · simp
    · intro r hr
      rcases List.mem_singleton.1 hr with h2
      subst h2; exact createGeneralRecord_keys today text sf
  · next h =>
    apply unionKeys_const
    · exact ne_nil_of_not_isEmpty h
    · exact layoutLoop_forall today sf (fun r => recordKeys r = layoutSchema)
        (fun room de fe me ad st no => createLayoutRecord_keys today room de fe me ad st no sf) _ _

theorem parseLayout_rows_ne_nil (today : Date) (text sf : String) :
    (parseLayout today text sf).rows ≠ [] := by
  simp only [parseLayout, dataFrameOf]
  split
  · simp
  · next h => exact ne_nil_of_not_isEmpty h

theorem layoutStepMeas_room (st : LayoutState) (line : String) :
    (layoutStepMeas st line).room = st.room := by
  simp only [layoutStepMeas]
  repeat' split
  all_goals rfl

theorem layoutStepFeature_room (st : LayoutState) (line : String) :
    (layoutStepFeature st line).room = st.room := by
  simp only [layoutStepFeature]
  repeat' split
  all_goals rfl

theorem layoutStepAdjacent_room (st : LayoutState) (line : String) :
    (layoutStepAdjacent st line).room = st.room := by
  simp only [layoutStepAdjacent]
  repeat' split
  all_goals rfl

theorem layoutStepStatus_room (st : LayoutState) (line : String) :
    (layoutStepStatus st line).room = st.room := by
  simp only [layoutStepStatus]
  repeat' split
  all_goals rfl

theorem layoutStepNotes_room (st : LayoutState) (line : String) :
    (layoutStepNotes st line).room = st.room := by
  simp only [layoutStepNotes]
  repeat' split
  all_goals rfl

theorem layoutStepDescr_room (st : LayoutState) (line : String) :
    (layoutStepDescr st line).room = st.room := by
  simp only [layoutStepDescr]
  repeat' split
  all_goals rfl

theorem layoutStep_room (st : LayoutState) (line : String) :
    (layoutStep st line).room = st.room := by
  simp only [layoutStep, layoutStepDescr_room, layoutStepNotes_room, layoutStepStatus_room,
    layoutStepAdjacent_room, layoutStepFeature_room, layoutStepMeas_room]

theorem layoutLoop_roomless (today : Date) (sf : String) :
    ∀ lines, (∀ l ∈ lines, layoutExtractRoom l = none) →
      ∀ st : LayoutState, st.room = none → layoutLoop today sf lines st = [] := by
  intro lines
  induction lines with
  | nil =>
    intro _ st hroom
    rw [layoutLoop]
    unfold layoutFlush
    rw [hroom]
  | cons line rest ih =>
    intro h st hroom
    rw [layoutLoop]
    rw [h line (by simp)]
    exact ih (fun l hl => h l (by simp [hl])) _ (by rw [layoutStep_room]; exact hroom)

theorem taskExtractTaskText_length {line t : String}
    (h : taskExtractTaskText line = some t) : 5 < t.length := by
  simp only [taskExtractTaskText] at h
  split at h
  · next hc =>
    cases h
    rw [Bool.and_eq_true] at hc
    exact of_decide_eq_true hc.1
  · cases h

theorem extractChecklistItem_length {line t : String}
    (h : extractChecklistItem line = some t) : 5 < t.length := by
  simp only [extractChecklistItem] at h
  repeat' split at h
  all_goals cases h
  all_goals assumption

theorem txnLoopEndOrNewItem_nil (today : Date) (sf : String) (cur : TxnDraft) :
    txnLoopEndOrNewItem today sf [] cur = ([], cur) := rfl

theorem txnLoopEndOrNewItem_cons (today : Date) (sf line : String) (rest : List String)
    (cur : TxnDraft) :
    txnLoopEndOrNewItem today sf (line :: rest) cur =
      (if (rest.isEmpty || txnNewItemNext (txnStep cur line) rest) &&
          ((txnStep cur line).description.isSome || (txnStep cur line).amount.isSome) then
         (createTransactionRecord today (txnStep cur line) sf ::
            (txnLoopEndOrNewItem today sf rest {}).1,
          (txnLoopEndOrNewItem today sf rest {}).2)
       else txnLoopEndOrNewItem today sf rest (txnStep cur line)) := rfl

theorem txnBlankNext_false {rest : List String} (h : ∀ l ∈ rest, pyStrip l ≠ "") :
    txnBlankNext rest = false := by
  cases rest with
  | nil => rfl
  | cons next rest' => simpa [txnBlankNext] using h next (by simp)

/-- On line lists without blank (all-whitespace) entries — in particular on
`cleanLines` output — the source loop and the amended loop coincide: the
blank-next-line disjunct is dead. -/
theorem txnLoop_eq_endOrNewItem (today : Date) (sf : String) :
    ∀ lines, (∀ l ∈ lines, pyStrip l ≠ "") → ∀ cur,
      txnLoop today sf lines cur = txnLoopEndOrNewItem today sf lines cur := by
  intro lines
  induction lines with
  | nil => intro _ cur; rfl
  | cons line rest ih =>
    intro h cur
    have hrest : ∀ l ∈ rest, pyStrip l ≠ "" := fun l hl => h l (List.mem_cons_of_mem _ hl)
    rw [txnLoop_cons, txnLoopEndOrNewItem_cons, txnBlankNext_false hrest]
    simp only [Bool.false_or, ih hrest]

theorem C3helper_parse_eq (today : Date) (text sf : String) :
    parseTransactions today text sf = parseTransactionsEndOrNewItem today text sf := by
  have hcl : ∀ l ∈ cleanLines text, pyStrip l ≠ "" := by
    intro l hl
    have := mem_cleanLines hl
    rw [this.1]
    exact this.2
  simp only [parseTransactions, parseTransactionsEndOrNewItem,
    txnLoop_eq_endOrNewItem today sf (cleanLines text) hcl]

theorem createTransactionRecord_drop (t1 t2 : Date) (data : TxnDraft) (sf : String) :
    recordDrop ["Date Added"] (createTransactionRecord t1 data sf) =
      recordDrop ["Date Added"] (createTransactionRecord t2 data sf) := rfl

theorem createTaskRecord_drop (t1 t2 : Date) (tt sf : String) (tl : Option String)
    (dd1 dd2 : Option String) :
    recordDrop ["Date Added", "Due Date"] (createTaskRecord t1 tt sf tl dd1) =
      recordDrop ["Date Added", "Due Date"] (createTaskRecord t2 tt sf tl dd2) := rfl

theorem createMovingTaskRecord_drop (t1 t2 md : Date) (tt sec : String) (tl : Option String)
    (pr : String) :
    recordDrop ["Date Added"] (createMovingTaskRecord t1 md tt sec tl pr) =
      recordDrop ["Date Added"] (createMovingTaskRecord t2 md tt sec tl pr) := rfl

theorem createLayoutRecord_drop (t1 t2 : Date) (room : String) (de fe : List String)
    (me : Option String) (ad : List String) (st : Option String) (no : List String)
    (sf : String) :
    recordDrop ["Date Added"] (createLayoutRecord t1 room de fe me ad st no sf) =
      recordDrop ["Date Added"] (createLayoutRecord t2 room de fe me ad st no sf) := rfl

theorem createGeneralRecord_drop (t1 t2 : Date) (text sf : String) :
    recordDrop ["Date Added"] (createGeneralRecord t1 text sf) =
      recordDrop ["Date Added"] (createGeneralRecord t2 text sf) := rfl

/-- The transaction loop run at two different parse dates: identical records
modulo the "Date Added" column, and an identical final draft. -/
theorem txnLoop_today (t1 t2 : Date) (sf : String) :
    ∀ (lines : List String) (cur : TxnDraft),
      (txnLoop t1 sf lines cur).1.map (recordDrop ["Date Added"]) =
        (txnLoop t2 sf lines cur).1.map (recordDrop ["Date Added"]) ∧
      (txnLoop t1 sf lines cur).2 = (txnLoop t2 sf lines cur).2 := by
  intro lines
  induction lines with
  | nil => intro cur; exact ⟨rfl, rfl⟩
  | cons line rest ih =>
    intro cur
    rw [txnLoop_cons, txnLoop_cons]
    refine ⟨?_, ?_⟩
    · split
      · simp only [List.map_cons]
        exact congrArg₂ List.cons (createTransactionRecord_drop t1 t2 _ sf) (ih {}).1
      · exact (ih _).1
    · split
      · exact (ih {}).2
      · exact (ih _).2

/-- The task loop run at two different parse dates (hence with different
carried due dates): identical records modulo "Date Added" and "Due Date". -/
theorem taskLoop_today (t1 t2 : Date) (sf : String) :
    ∀ (lines : List String) (tl : Option String) (dd1 dd2 : Option String),
      (taskLoop t1 sf lines tl dd1).map (recordDrop ["Date Added", "Due Date"]) =
        (taskLoop t2 sf lines tl dd2).map (recordDrop ["Date Added", "Due Date"]) := by
  intro lines
  induction lines with
  | nil => intro tl dd1 dd2; rfl
  | cons line rest ih =>
    intro tl dd1 dd2
    rw [taskLoop, taskLoop]
    cases h1 : taskExtractTimeline line with
    | some timeline => exact ih _ _ _
    | none =>
      cases h2 : taskExtractTaskText line with
      | some t =>
        simp only [List.map_cons]
        exact congrArg₂ List.cons (createTaskRecord_drop t1 t2 t sf tl dd1 dd2) (ih _ _ _)
      | none => exact ih _ _ _

/-- The moving-guide loop run at two different parse dates with the same
moving day: identical records modulo "Date Added". -/
theorem movingLoop_today (t1 t2 md : Date) :
    ∀ (lines : List String) (cs ct : Option String) (cp : String),
      (movingLoop t1 md lines cs ct cp).map (recordDrop ["Date Added"]) =
        (movingLoop t2 md lines cs ct cp).map (recordDrop ["Date Added"]) := by
  intro lines
  induction lines with
  | nil => intro cs ct cp; rfl
  | cons rawLine rest ih =>
    intro cs ct cp
    rw [movingLoop, movingLoop]
    by_cases hblank : pyStrip rawLine = ""
    · rw [if_pos hblank, if_pos hblank]; exact ih _ _ _
    · rw [if_neg hblank, if_neg hblank]
      cases h1 : extractSectionInfo (pyStrip rawLine) with
      | some si => exact ih _ _ _
      | none =>
        cases h2 : extractChecklistItem (pyStrip rawLine) with
        | some task =>
          simp only [List.map_cons]
          exact congrArg₂ List.cons (createMovingTaskRecord_drop t1 t2 md task _ ct cp) (ih _ _ _)
        | none =>
          cases h3 : extractActionStep (pyStrip rawLine) with
          | some step =>
            show List.map (recordDrop ["Date Added"])
                (if step ≠ "" then
                  createMovingTaskRecord t1 md step (sectionOr cs) ct cp ::
                    movingLoop t1 md rest cs ct cp
                 else movingLoop t1 md rest cs ct cp) =
              List.map (recordDrop ["Date Added"])
                (if step ≠ "" then
                  createMovingTaskRecord t2 md step (sectionOr cs) ct cp ::
                    movingLoop t2 md rest cs ct cp
                 else movingLoop t2 md rest cs ct cp)
            by_cases hne : step ≠ ""
            · rw [if_pos hne, if_pos hne]
              simp only [List.map_cons]
              exact congrArg₂ List.cons (createMovingTaskRecord_drop t1 t2 md step _ ct cp) (ih _ _ _)
            · rw [if_neg hne, if_neg hne]
              exact ih _ _ _
          | none => exact ih _ _ _

/-- The layout loop run at two different parse dates: identical records
modulo "Date Added". -/
theorem layoutLoop_today (t1 t2 : Date) (sf : String) :
    ∀ (lines : List String) (st : LayoutState),
      (layoutLoop t1 sf lines st).map (recordDrop ["Date Added"]) =
        (layoutLoop t2 sf lines st).map (recordDrop ["Date Added"]) := by
  have hfl : ∀ st : LayoutState,
      (layoutFlush t1 sf st).map (recordDrop ["Date Added"]) =
        (layoutFlush t2 sf st).map (recordDrop ["Date Added"]) := by
    intro st
    unfold layoutFlush
    cases st.room with
    | some room =>
      simp only [List.map_cons, List.map_nil]
      exact congrArg₂ List.cons (createLayoutRecord_drop t1 t2 room _ _ _ _ _ _ sf) rfl
    | none => rfl
  intro lines
  induction lines with
  | nil => intro st; rw [layoutLoop, layoutLoop]; exact hfl st
  | cons line rest ih =>
    intro st
    rw [layoutLoop, layoutLoop]
    cases h1 : layoutExtractRoom line with
    | some room =>
      rw [List.map_append, List.map_append, hfl st, ih _]
    | none => exact ih _

theorem isEmpty_append_singleton {α : Type} (l : List α) (x : α) :
    (l ++ [x]).isEmpty = false := by
  cases l <;> rfl

theorem isEmpty_eq_of_map_eq {α β : Type} {f : α → β} {l1 l2 : List α}
    (h : l1.map f = l2.map f) : l1.isEmpty = l2.isEmpty := by
  cases l1 <;> cases l2 <;> simp_all

theorem parseTransactions_today (t1 t2 : Date) (text sf : String) :
    (parseTransactions t1 text sf).rows.map (recordDrop ["Date Added"]) =
      (parseTransactions t2 text sf).rows.map (recordDrop ["Date Added"]) := by
  have h := txnLoop_today t1 t2 sf (cleanLines text) {}
  simp only [parseTransactions, dataFrameOf]
  rw [h.2]
  by_cases hc : (txnLoop t2 sf (cleanLines text) {}).2.description.isSome ||
      (txnLoop t2 sf (cleanLines text) {}).2.amount.isSome
  · rw [if_pos hc, if_pos hc]
    simp only [isEmpty_append_singleton, Bool.false_eq_true, if_false, List.map_append,
      List.map_cons, List.map_nil]
    rw [h.1, createTransactionRecord_drop t1 t2 (txnLoop t2 sf (cleanLines text) {}).2 sf]
  · rw [if_neg hc, if_neg hc]
    have he := isEmpty_eq_of_map_eq h.1
    by_cases h1 : (txnLoop t1 sf (cleanLines text) {}).1.isEmpty
    · have h2 : (txnLoop t2 sf (cleanLines text) {}).1.isEmpty = true := by rw [← he]; exact h1
      rw [if_pos h1, if_pos h2]
    · have h2 : ¬ (txnLoop t2 sf (cleanLines text) {}).1.isEmpty = true := by rw [← he]; exact h1
      rw [if_neg h1, if_neg h2]
      exact h.1

theorem parseTasks_today (t1 t2 : Date) (text sf : String) :
    (parseTasks t1 text sf).rows.map (recordDrop ["Date Added", "Due Date"]) =
      (parseTasks t2 text sf).rows.map (recordDrop ["Date Added", "Due Date"]) := by
  have h := taskLoop_today t1 t2 sf (cleanLines text) none none none
  simp only [parseTasks, dataFrameOf]
  have he := isEmpty_eq_of_map_eq h
  by_cases h1 : (taskLoop t1 sf (cleanLines text) none none).isEmpty
  · have h2 : (taskLoop t2 sf (cleanLines text) none none).isEmpty = true := by
      rw [← he]; exact h1
    rw [if_pos h1, if_pos h2]
  · have h2 : ¬ (taskLoop t2 sf (cleanLines text) none none).isEmpty = true := by
      rw [← he]; exact h1
    rw [if_neg h1, if_neg h2]
    exact h

theorem parseGuide_today (t1 t2 md : Date) (text : String) :
    (parseGuide t1 md text).rows.map (recordDrop ["Date Added"]) =
      (parseGuide t2 md text).rows.map (recordDrop ["Date Added"]) := by
  have h := movingLoop_today t1 t2 md (pySplitLines text) none none "medium"
  simp only [parseGuide, dataFrameOf]
  have he := isEmpty_eq_of_map_eq h
  by_cases h1 : (movingLoop t1 md (pySplitLines text) none none "medium").isEmpty
  · have h2 : (movingLoop t2 md (pySplitLines text) none none "medium").isEmpty = true := by
      rw [← he]; exact h1
    rw [if_pos h1, if_pos h2]
  · have h2 : ¬ (movingLoop t2 md (pySplitLines text) none none "medium").isEmpty = true := by
      rw [← he]; exact h1
    rw [if_neg h1, if_neg h2]
    exact h

theorem parseLayout_today (t1 t2 : Date) (text sf : String) :
    (parseLayout t1 text sf).rows.map (recordDrop ["Date Added"]) =
      (parseLayout t2 text sf).rows.map (recordDrop ["Date Added"]) := by
  have h := layoutLoop_today t1 t2 sf (cleanLines text) {}
  simp only [parseLayout, dataFrameOf]
  have he := isEmpty_eq_of_map_eq h
  by_cases h1 : (layoutLoop t1 sf (cleanLines text) {}).isEmpty
  · have h2 : (layoutLoop t2 sf (cleanLines text) {}).isEmpty = true := by rw [← he]; exact h1
    rw [if_pos h1, if_pos h2]
    simp only [List.map_cons, List.map_nil]
    exact congrArg₂ List.cons (createGeneralRecord_drop t1 t2 text sf) rfl
  · have h2 : ¬ (layoutLoop t2 sf (cleanLines text) {}).isEmpty = true := by rw [← he]; exact h1
    rw [if_neg h1, if_neg h2]
    exact h

theorem ite_isEmpty_intercalate (sep : String) (l : List String) :
    (if l.isEmpty then "" else String.intercalate sep l) = String.intercalate sep l := by
  cases l <;> rfl

theorem findSome?_none {α β : Type} (l : List α) :
    l.findSome? (fun _ => (none : Option β)) = none := by
  induction l with
  | nil => rfl
  | cons a t ih => simp [List.findSome?, ih]

/-! ## Claims -/

/-- C1: for every input text and source file, every record emitted by any of
the four document parsers (transaction, task, layout, moving-guide
checklist) has exactly its document type's fixed column set in the
documented fixed order, and the zero-record result also carries the full
column set (the `columns` conjuncts hold unconditionally, in particular when
`rows` is empty). -/
theorem C1_record_schemas :
    (∀ today : Date, ∀ text sf : String,
      (∀ r ∈ (parseTransactions today text sf).rows, recordKeys r = txnSchema) ∧
      (parseTransactions today text sf).columns = txnSchema) ∧
    (∀ today : Date, ∀ text sf : String,
      (∀ r ∈ (parseTasks today text sf).rows, recordKeys r = taskSchema) ∧
      (parseTasks today text sf).columns = taskSchema) ∧
    (∀ today md : Date, ∀ text : String,
      (∀ r ∈ (parseGuide today md text).rows, recordKeys r = taskSchema) ∧
      (parseGuide today md text).columns = taskSchema) ∧
    (∀ today : Date, ∀ text sf : String,
      (∀ r ∈ (parseLayout today text sf).rows, recordKeys r = layoutSchema) ∧
      (parseLayout today text sf).columns = layoutSchema) := by
  refine ⟨fun today text sf => ⟨?_, parseTransactions_columns today text sf⟩,
    fun today text sf => ⟨?_, parseTasks_columns today text sf⟩,
    fun today md text => ⟨?_, parseGuide_columns today md text⟩,
    fun today text sf => ⟨?_, parseLayout_columns today text sf⟩⟩
  · exact parseTransactions_rows_forall today text sf (fun r => recordKeys r = txnSchema)
      (fun data => createTransactionRecord_keys today data sf)
  · exact parseTasks_rows_forall today text sf (fun r => recordKeys r = taskSchema)
      (fun line t tl dd _ => createTaskRecord_keys today t sf tl dd)
  · exact parseGuide_rows_forall today md text (fun r => recordKeys r = taskSchema)
      (fun task sec tl pr => createMovingTaskRecord_keys today md task sec tl pr)
  · exact parseLayout_rows_forall today text sf (fun r => recordKeys r = layoutSchema)
      (fun room de fe me ad st no => createLayoutRecord_keys today room de fe me ad st no sf)
      (createGeneralRecord_keys today text sf)

theorem C1_record_schemas_witness :
    recordKeys ((parseTransactions d20251101 "Item: Cabinets" "f.jpg").rows.headD []) = txnSchema ∧
    recordKeys ((parseTasks d20251101 "Prepare a Budget" "t.jpg").rows.headD []) = taskSchema ∧
    recordKeys ((parseGuide d20251101 d20251101 "Action Step 1: Pack boxes").rows.headD []) = taskSchema ∧
    recordKeys ((parseLayout d20251101 "scribbles with no room" "l.jpg").rows.headD []) = layoutSchema :=
  ⟨(C1_record_schemas.1 d20251101 "Item: Cabinets" "f.jpg").1 _ (by decide),
   (C1_record_schemas.2.1 d20251101 "Prepare a Budget" "t.jpg").1 _ (by decide),
   (C1_record_schemas.2.2.1 d20251101 d20251101 "Action Step 1: Pack boxes").1 _ (by decide),
   (C1_record_schemas.2.2.2 d20251101 "scribbles with no room" "l.jpg").1 _ (by decide)⟩

/-- C2 (amended): the moving-guide parser's due-date computation is
`anchor − offset` with exact-match-then-substring-containment lookup, the
anchor defaulting to now + 14 days, and the two documented examples hold;
the task parser's computation is instead `now + offset` with exact-only
lookup in its own word-based table. -/
theorem C2_timeline_resolution :
    movingCalculateDueDate d20251101 (some "moving day") = some "2025-11-01" ∧
    movingCalculateDueDate d20251101 (some "2 weeks before") = some "2025-10-18" ∧
    (∀ today : Date, defaultMovingDay today = addDays today 14) ∧
    (∀ anchor : Date, ∀ phrase : String, phrase ≠ "" →
      movingCalculateDueDate anchor (some phrase) =
        (movingLookupSpec (pyLower phrase)).map
          (fun off => formatDate (addDays anchor (-off)))) ∧
    (∀ today : Date, ∀ phrase : String, phrase ≠ "" →
      taskCalculateDueDate today phrase =
        (lookupOffset taskTimelineMappings (pyLower phrase)).map
          (fun off => formatDate (addDays today off))) := by
  refine ⟨by decide, by decide, fun today => rfl, ?_, ?_⟩
  · intro anchor phrase hne
    simp only [movingCalculateDueDate, movingLookupSpec, if_neg hne]
    cases hl : lookupOffset movingTimelineMappings (pyLower phrase) with
    | some off => rfl
    | none =>
      cases hf : movingTimelineMappings.findSome?
          (fun p => if pyIn p.1 (pyLower phrase) then some p.2 else none) with
      | some off => rfl
      | none => rfl
  · intro today phrase hne
    simp only [taskCalculateDueDate, if_neg hne]
    cases hl : lookupOffset taskTimelineMappings (pyLower phrase) with
    | some off => rfl
    | none => rfl

theorem C2_timeline_resolution_witness :
    movingCalculateDueDate d20251101 (some "week of move") =
      (movingLookupSpec (pyLower "week of move")).map
        (fun off => formatDate (addDays d20251101 (-off))) ∧
    taskCalculateDueDate d20251101 "two weeks before" =
      (lookupOffset taskTimelineMappings (pyLower "two weeks before")).map
        (fun off => formatDate (addDays d20251101 off)) :=
  ⟨C2_timeline_resolution.2.2.2.1 d20251101 "week of move" (by decide),
   C2_timeline_resolution.2.2.2.2 d20251101 "two weeks before" (by decide)⟩

/-- C2 counterexample: "moving day" is a recognized phrase of the task
parser's table (offset 0), so under the claim its due date would be
`anchor − 0` with the anchor defaulted to now + 14 days, i.e. 2025-11-15 for
now = 2025-11-01; the task parser instead yields now itself, 2025-11-01. -/
theorem C2_counterexample :
    lookupOffset taskTimelineMappings "moving day" = some 0 ∧
    taskCalculateDueDate d20251101 "moving day" = some "2025-11-01" ∧
    formatDate (addDays (defaultMovingDay d20251101) (-(0 : Int))) = "2025-11-15" ∧
    taskCalculateDueDate d20251101 "moving day" ≠
      some (formatDate (addDays (defaultMovingDay d20251101) (-(0 : Int)))) :=
  ⟨by decide, by decide, by decide, by decide⟩

/-- C3 (amended): the current partial transaction is flushed exactly when
input ends or when the next line starts an `item:`/`description:` field
while the partial record already has a description; the blank-next-line
trigger is unreachable because blank lines are removed before scanning, so
the whole parse equals the variant without that trigger. -/
theorem C3_flush_boundary :
    ∀ today : Date, ∀ text sf : String,
      parseTransactions today text sf = parseTransactionsEndOrNewItem today text sf :=
  fun today text sf => C3helper_parse_eq today text sf

/-- C3 counterexample: two transaction blocks separated only by a blank line,
the second carrying no `item:`/`description:` label, are merged into a single
record rather than emitted as two. -/
theorem C3_counterexample :
    (parseTransactions d20251101 "Item: Cabinets\nCost: $100\n\nCost: $200\nVendor: Lowes"
      "f.jpg").rows.length = 1 ∧
    ¬ (parseTransactions d20251101 "Item: Cabinets\nCost: $100\n\nCost: $200\nVendor: Lowes"
      "f.jpg").rows.length = 2 :=
  ⟨by decide, by decide⟩

/-- C4: on the documented input the transaction parser emits exactly one
record with Description "Kitchen Cabinets", Amount "$3,500.00", Vendor
"Home Depot", Status "Paid" and Category "Materials" (derived from the
description via the "cabinets" keyword), at any parse date. -/
theorem C4_kitchen_cabinets_example :
    ∀ today : Date,
      (parseTransactions today
        "Item: Kitchen Cabinets\nCost: $3,500.00\nVendor: Home Depot\nStatus: Paid\n\n"
        "financial_notes.jpg").rows.length = 1 ∧
      recordGet ((parseTransactions today
        "Item: Kitchen Cabinets\nCost: $3,500.00\nVendor: Home Depot\nStatus: Paid\n\n"
        "financial_notes.jpg").rows.headD []) "Description" = "Kitchen Cabinets" ∧
      recordGet ((parseTransactions today
        "Item: Kitchen Cabinets\nCost: $3,500.00\nVendor: Home Depot\nStatus: Paid\n\n"
        "financial_notes.jpg").rows.headD []) "Amount" = "$3,500.00" ∧
      recordGet ((parseTransactions today
        "Item: Kitchen Cabinets\nCost: $3,500.00\nVendor: Home Depot\nStatus: Paid\n\n"
        "financial_notes.jpg").rows.headD []) "Vendor" = "Home Depot" ∧
      recordGet ((parseTransactions today
        "Item: Kitchen Cabinets\nCost: $3,500.00\nVendor: Home Depot\nStatus: Paid\n\n"
        "financial_notes.jpg").rows.headD []) "Status" = "Paid" ∧
      recordGet ((parseTransactions today
        "Item: Kitchen Cabinets\nCost: $3,500.00\nVendor: Home Depot\nStatus: Paid\n\n"
        "financial_notes.jpg").rows.headD []) "Category" = "Materials" :=
  fun _ => ⟨rfl, rfl, rfl, rfl, rfl, rfl⟩

/-- C5: on non-empty text in which the layout parser detects no room block,
it emits exactly the single fallback record: blank Room/Area Name,
Description the first 200 characters of the full text, Measurements the
comma-join of the measurements found on each raw line independently, and
Notes the first 500 characters if the text exceeds 200 characters and empty
otherwise. -/
theorem C5_layout_fallback (today : Date) (text sf : String) (hne : text ≠ "")
    (hroomless : ∀ l ∈ cleanLines text, layoutExtractRoom l = none) :
    (parseLayout today text sf).rows = [createGeneralRecord today text sf] ∧
    recordGet (createGeneralRecord today text sf) "Room/Area Name" = "" ∧
    recordGet (createGeneralRecord today text sf) "Description" = pyTake 200 text ∧
    recordGet (createGeneralRecord today text sf) "Measurements" =
      String.intercalate ", " (((pySplitLines text).filterMap extractMeasurements).filter (· ≠ "")) ∧
    recordGet (createGeneralRecord today text sf) "Notes" =
      (if 200 < text.length then pyTake 500 text else "") := by
  refine ⟨?_, rfl, ?_, ?_, rfl⟩
  · have hloop : layoutLoop today sf (cleanLines text) {} = [] :=
      layoutLoop_roomless today sf (cleanLines text) hroomless {} rfl
    simp only [parseLayout, dataFrameOf, hloop]
    rfl
  · show (if text = "" then "" else pyTake 200 text) = pyTake 200 text
    exact if_neg hne
  · show (if (((pySplitLines text).filterMap extractMeasurements).filter (· ≠ "")).isEmpty then ""
        else String.intercalate ", "
          (((pySplitLines text).filterMap extractMeasurements).filter (· ≠ ""))) =
      String.intercalate ", " (((pySplitLines text).filterMap extractMeasurements).filter (· ≠ ""))
    exact ite_isEmpty_intercalate ", " _

theorem C5_layout_fallback_witness :
    (parseLayout d20251101 "Just notes here\n12 x 15" "f.jpg").rows =
      [createGeneralRecord d20251101 "Just notes here\n12 x 15" "f.jpg"] ∧
    recordGet (createGeneralRecord d20251101 "Just notes here\n12 x 15" "f.jpg")
      "Room/Area Name" = "" ∧
    recordGet (createGeneralRecord d20251101 "Just notes here\n12 x 15" "f.jpg")
      "Description" = pyTake 200 "Just notes here\n12 x 15" ∧
    recordGet (createGeneralRecord d20251101 "Just notes here\n12 x 15" "f.jpg")
      "Measurements" = String.intercalate ", "
        (((pySplitLines "Just notes here\n12 x 15").filterMap extractMeasurements).filter (· ≠ "")) ∧
    recordGet (createGeneralRecord d20251101 "Just notes here\n12 x 15" "f.jpg")
      "Notes" = (if 200 < ("Just notes here\n12 x 15" : String).length
        then pyTake 500 "Just notes here\n12 x 15" else "") :=
  C5_layout_fallback d20251101 "Just notes here\n12 x 15" "f.jpg" (by decide) (by decide)

/-- C6 (amended): the category/room/priority/status classifiers — the
transaction category and status classifiers, the task room and priority
classifiers, and the moving-guide room and priority classifiers — lowercase
the text and pick the first table entry (in table iteration order) with a
plain substring hit, falling back to the per-classifier default (the
moving-guide priority classifier falls back to the section's base level
mapped through the priority dropdown table); layout room detection on a
non-`Room:`-labelled line instead requires a whole-word (word-boundary)
occurrence of the keyword, and only on a line of at most 4 words — a mere
substring occurrence does not suffice. -/
theorem C6_keyword_classifiers :
    (∀ desc : String, inferCategory desc = firstSubstringCategory categoryKeywords "Other" desc) ∧
    (∀ desc : String, taskInferRoom desc = firstSubstringCategory taskRoomKeywords "General" desc) ∧
    (∀ text : String, extractStatus text = firstSubstringCategory statusKeywords "Pending" text) ∧
    (∀ desc : String,
      taskInferPriority desc = firstSubstringCategory taskPriorityKeywords prioMedium desc) ∧
    (∀ text : String,
      movingInferRoom text = firstSubstringCategory movingRoomKeywords "General" text) ∧
    (∀ text base : String,
      movingDeterminePriority text base =
        (lookupStr validPriorities
          (firstSubstringCategory movingPriorityKeywords base text)).getD prioMedium) ∧
    (∀ line : String, ¬ startsRoomLabel (pyLower line).data = true →
      layoutExtractRoom line =
        (if (pyWords line).length ≤ 4 then
           layoutRoomKeywords.findSome? (fun p =>
             if p.2.any (fun k => wbSearch (pyLower k).data (pyLower line).data) then some p.1
             else none)
         else none)) := by
  refine ⟨?_, ?_, fun text => rfl, ?_, fun text => rfl, ?_, ?_⟩
  · intro desc
    by_cases h : desc = ""
    · subst h; decide
    · simp only [inferCategory, firstSubstringCategory, if_neg h]
  · intro desc
    by_cases h : desc = ""
    · subst h; decide
    · simp only [taskInferRoom, firstSubstringCategory, if_neg h]
  · intro desc
    by_cases h : desc = ""
    · subst h; decide
    · simp only [taskInferPriority, firstSubstringCategory, if_neg h]
  · intro text base
    simp only [movingDeterminePriority, firstSubstringCategory]
    cases h : firstKeywordHit movingPriorityKeywords (pyLower text) with
    | some p => rfl
    | none => rfl
  · intro line hlabel
    simp only [layoutExtractRoom, if_neg hlabel]
    by_cases hw : (pyWords line).length ≤ 4
    · simp only [if_pos hw]
    · simp only [if_neg hw, ite_self]
      exact findSome?_none _

theorem C6_keyword_classifiers_witness :
    layoutExtractRoom "Kitchen area" =
      (if (pyWords "Kitchen area").length ≤ 4 then
         layoutRoomKeywords.findSome? (fun p =>
           if p.2.any (fun k => wbSearch (pyLower k).data (pyLower "Kitchen area").data) then
             some p.1
           else none)
       else none) :=
  C6_keyword_classifiers.2.2.2.2.2.2 "Kitchen area" (by decide)

/-- C6 counterexample: "Kitchenette nook" is a 2-word line containing
"kitchen" as a substring, yet layout room detection yields no room, because
the source requires a word-boundary match, not mere substring containment. -/
theorem C6_counterexample :
    pyIn "kitchen" (pyLower "Kitchenette nook") = true ∧
    (pyWords "Kitchenette nook").length ≤ 4 ∧
    layoutExtractRoom "Kitchenette nook" = none :=
  ⟨by decide, by decide, by decide⟩

/-- C7 (amended): every record the task parser emits has a task description
longer than 5 characters, and every moving-guide checkbox item that is
emitted is longer than 5 characters; the moving-guide action-step path has
no such length guard (see the counterexample). -/
theorem C7_short_line_guard :
    (∀ today : Date, ∀ text sf : String, ∀ r ∈ (parseTasks today text sf).rows,
      5 < (recordGet r "Task Description").length) ∧
    (∀ line t : String, extractChecklistItem line = some t → 5 < t.length) := by
  constructor
  · intro today text sf
    exact parseTasks_rows_forall today text sf
      (fun r => 5 < (recordGet r "Task Description").length)
      (fun line t tl dd h => taskExtractTaskText_length h)
  · intro line t h
    exact extractChecklistItem_length h

theorem C7_short_line_guard_witness :
    5 < (recordGet ((parseTasks d20251101 "Prepare a Budget" "t.jpg").rows.headD [])
      "Task Description").length ∧
    5 < ("Book a Mover" : String).length :=
  ⟨C7_short_line_guard.1 d20251101 "Prepare a Budget" "t.jpg" _ (by decide),
   C7_short_line_guard.2 "[ ] Book a Mover" "Book a Mover" (by decide)⟩

/-- C7 counterexample: the line "Action Step 1: Pack" makes the moving-guide
parser emit a record whose task description "Pack" has length 4 ≤ 5, so the
cleanup-length guard does not cover the action-step path. -/
theorem C7_counterexample :
    (parseGuide d20251101 d20251101 "Action Step 1: Pack").rows.length = 1 ∧
    recordGet ((parseGuide d20251101 d20251101 "Action Step 1: Pack").rows.headD [])
      "Task Description" = "Pack" ∧
    ("Pack" : String).length ≤ 5 :=
  ⟨by decide, by decide, by decide⟩

/-- C8 (amended): re-running a parse at a different date leaves the
transaction, layout and (anchor-fixed) moving-guide records identical except
for "Date Added", while task records are identical except for "Date Added"
and "Due Date" — the task parser's due dates are computed from the current
date, so they also change between runs. -/
theorem C8_reparse_stability :
    (∀ t1 t2 : Date, ∀ text sf : String,
      (parseTransactions t1 text sf).rows.map (recordDrop ["Date Added"]) =
        (parseTransactions t2 text sf).rows.map (recordDrop ["Date Added"])) ∧
    (∀ t1 t2 : Date, ∀ text sf : String,
      (parseLayout t1 text sf).rows.map (recordDrop ["Date Added"]) =
        (parseLayout t2 text sf).rows.map (recordDrop ["Date Added"])) ∧
    (∀ t1 t2 : Date, ∀ text sf : String,
      (parseTasks t1 text sf).rows.map (recordDrop ["Date Added", "Due Date"]) =
        (parseTasks t2 text sf).rows.map (recordDrop ["Date Added", "Due Date"])) ∧
    (∀ t1 t2 md : Date, ∀ text : String,
      (parseGuide t1 md text).rows.map (recordDrop ["Date Added"]) =
        (parseGuide t2 md text).rows.map (recordDrop ["Date Added"])) :=
  ⟨parseTransactions_today, parseLayout_today, parseTasks_today, parseGuide_today⟩

/-- C8 counterexample: parsing the same task text on 2025-11-01 and
2025-11-02 yields records that still differ after the "Date Added" column is
removed — the "Due Date" column follows the parse date. -/
theorem C8_counterexample :
    (parseTasks d20251101 "Moving Day\nGet Up Early Today" "t.jpg").rows.map
        (recordDrop ["Date Added"]) ≠
      (parseTasks d20251102 "Moving Day\nGet Up Early Today" "t.jpg").rows.map
        (recordDrop ["Date Added"]) := by decide

/-- C9: extractors are total and a parser call never fails: the layout parser
always returns at least one record (substituting the single generic fallback
when nothing matches), while the transaction, task and moving-guide parsers
return an empty but schema-correct result when zero records are extracted. -/
theorem C9_failure_semantics :
    (∀ today : Date, ∀ text sf : String, (parseLayout today text sf).rows ≠ []) ∧
    (∀ today : Date, ∀ text sf : String, (parseTransactions today text sf).rows = [] →
      (parseTransactions today text sf).columns = txnSchema) ∧
    (∀ today : Date, ∀ text sf : String, (parseTasks today text sf).rows = [] →
      (parseTasks today text sf).columns = taskSchema) ∧
    (∀ today md : Date, ∀ text : String, (parseGuide today md text).rows = [] →
      (parseGuide today md text).columns = taskSchema) :=
  ⟨fun today text sf => parseLayout_rows_ne_nil today text sf,
   fun today text sf _ => parseTransactions_columns today text sf,
   fun today text sf _ => parseTasks_columns today text sf,
   fun today md text _ => parseGuide_columns today md text⟩

theorem C9_failure_semantics_witness :
    (parseLayout d20251101 "random scribbles" "l.jpg").rows ≠ [] ∧
    (parseTransactions d20251101 "zzz" "f.jpg").columns = txnSchema ∧
    (parseTasks d20251101 "abc" "t.jpg").columns = taskSchema ∧
    (parseGuide d20251101 d20251101 "plain prose line").columns = taskSchema :=
  ⟨C9_failure_semantics.1 d20251101 "random scribbles" "l.jpg",
   C9_failure_semantics.2.1 d20251101 "zzz" "f.jpg" (by decide),
   C9_failure_semantics.2.2.1 d20251101 "abc" "t.jpg" (by decide),
   C9_failure_semantics.2.2.2 d20251101 d20251101 "plain prose line" (by decide)⟩

/-- C10: every task record emitted by the task parser and by the moving-guide
parser has Status exactly "Not Started", regardless of line content. -/
theorem C10_status_not_started :
    (∀ today : Date, ∀ text sf : String, ∀ r ∈ (parseTasks today text sf).rows,
      recordGet r "Status" = "Not Started") ∧
    (∀ today md : Date, ∀ text : String, ∀ r ∈ (parseGuide today md text).rows,
      recordGet r "Status" = "Not Started") := by
  constructor
  · intro today text sf
    exact parseTasks_rows_forall today text sf (fun r => recordGet r "Status" = "Not Started")
      (fun line t tl dd _ => rfl)
  · intro today md text
    exact parseGuide_rows_forall today md text (fun r => recordGet r "Status" = "Not Started")
      (fun task sec tl pr => rfl)

theorem C10_status_not_started_witness :
    recordGet ((parseTasks d20251101 "Prepare a Budget but do it urgent" "t.jpg").rows.headD [])
      "Status" = "Not Started" ∧
    recordGet ((parseGuide d20251101 d20251101 "[ ] Buy boxes now").rows.headD [])
      "Status" = "Not Started" :=
  ⟨C10_status_not_started.1 d20251101 "Prepare a Budget but do it urgent" "t.jpg" _ (by decide),
   C10_status_not_started.2 d20251101 d20251101 "[ ] Buy boxes now" _ (by decide)⟩

end RenovationTracker
